import Mathlib

/-!
Verification development for the middle tier of a small C-like-language
compiler: a type-checking / constant-folding pass followed by an IR
(control-flow-graph) builder.  The definitions below are a shallow
embedding, translated function by function, of:

  - src/compiler/syntax/ast.rs          (syntax tree and `AstTy` equality)
  - src/compiler/ir_builder/context.rs  (scope table, ty info, conversions)
  - src/compiler/ir_builder/type_checker.rs (the Type Checker)
  - src/compiler/ir_builder/ir_builder.rs   (the IR Builder)

Rust `i32` values are modelled as `Int` with explicit wrapping into
`[-2^31, 2^31)` where the operation can overflow; division and modulo
panic (in every Rust build profile) on a zero divisor or on
`i32::MIN / -1`, which the embedding represents with an explicit
`panicked` outcome of the result monad below.  Fallible Rust code
(`Result`) maps onto the `err` outcome; `unwrap` / `unreachable!` /
`expect` map onto `panicked`.
-/

set_option maxHeartbeats 1600000

set_option linter.dupNamespace false

set_option linter.unusedVariables false

/-- Result of running a piece of Rust code that may return an error
(`Result::Err`) or panic (`unwrap`, `unreachable!`, arithmetic). -/
inductive RRes (ε : Type) (α : Type) where
  | ok (a : α)
  | err (e : ε)
  | panicked
  deriving Repr

namespace RRes

def bind : RRes ε α → (α → RRes ε β) → RRes ε β
  | .ok a, f => f a
  | .err e, _ => .err e
  | .panicked, _ => .panicked

instance : Monad (RRes ε) where
  pure := .ok
  bind := RRes.bind

/-- Lift an `Option` produced by a Rust `unwrap` call site: `none` panics. -/
def unwrapOpt : Option α → RRes ε α
  | some a => .ok a
  | none => .panicked

@[simp] theorem bind_ok (a : α) (f : α → RRes ε β) :
    RRes.bind (.ok a) f = f a := rfl

@[simp] theorem bind_err (e : ε) (f : α → RRes ε β) :
    RRes.bind (.err e) f = .err e := rfl

@[simp] theorem bind_panicked (f : α → RRes ε β) :
    RRes.bind (.panicked : RRes ε α) f = .panicked := rfl

@[simp] theorem pure_eq_ok (a : α) : (pure a : RRes ε α) = .ok a := rfl

@[simp] theorem bind_eq_bind (x : RRes ε α) (f : α → RRes ε β) :
    (x >>= f) = RRes.bind x f := rfl

end RRes

/-- Monadic map over a list, keeping source evaluation order
(models Rust `iter().map(..).try_collect()` / `try_for_each` loops). -/
def rmapM (f : α → RRes ε β) : List α → RRes ε (List β)
  | [] => .ok []
  | a :: as_ => do
      let b ← f a
      let bs ← rmapM f as_
      pure (b :: bs)

@[simp] theorem rmapM_nil (f : α → RRes ε β) : rmapM f [] = .ok [] := rfl

@[simp] theorem rmapM_cons (f : α → RRes ε β) (a : α) (l : List α) :
    rmapM f (a :: l) =
      RRes.bind (f a) (fun b => RRes.bind (rmapM f l) (fun bs => .ok (b :: bs))) := rfl

/-- Source span (ast.rs `Span`); the Rust field `end` is a Lean keyword and
is rendered `stop`. -/
structure Span where
  start : Nat
  stop : Nat
  deriving Repr, DecidableEq

/-! ## Semantic types (ast.rs `AstTy`) -/

/-- Semantic type of the checked language (ast.rs `enum AstTy`).  The Rust
`Box` indirection is dropped; `Vec` becomes `List`. -/
inductive AstTy where
  | Unknown
  | Void
  | Int
  | Bool
  | Func (ret_ty : AstTy) (param_tys : List AstTy)
  | Array (siz : Nat) (elem_ty : AstTy)
  | Ptr (elem_ty : AstTy)
  deriving Repr

mutual

/-- The hand-written `impl PartialEq for AstTy` (ast.rs lines 294-309),
arm by arm and in source order: the dedicated `(Array, Array)` arm
(requiring equal sizes) precedes and therefore shadows the
`(Ptr | Array, Ptr | Array)` arm, which compares element types alone.
Note the first arm lists `Unknown | Void | Int` only: `(Bool, Bool)`
falls through every arm to the final `false`. -/
def astTyEq : AstTy → AstTy → Bool
  | .Unknown, .Unknown => true
  | .Void, .Void => true
  | .Int, .Int => true
  | .Func r₁ p₁, .Func r₂ p₂ => astTyEq r₁ r₂ && astTyEqList p₁ p₂
  | .Array s₁ e₁, .Array s₂ e₂ => s₁ == s₂ && astTyEq e₁ e₂
  | .Ptr x, .Ptr y => astTyEq x y
  | .Ptr x, .Array _ y => astTyEq x y
  | .Array _ x, .Ptr y => astTyEq x y
  | _, _ => false

/-- `Vec<AstTy>` equality as derived by Rust: equal lengths and
element-wise `PartialEq`. -/
def astTyEqList : List AstTy → List AstTy → Bool
  | [], [] => true
  | x :: xs, y :: ys => astTyEq x y && astTyEqList xs ys
  | _, _ => false

end

/-- ast.rs `AstTy::as_func` (generated by `EnumAsInner`). -/
def AstTy.as_func : AstTy → Option (AstTy × List AstTy)
  | .Func r p => some (r, p)
  | _ => none

/-! ## 32-bit integer arithmetic

Rust release-profile semantics for `i32`: `+`, `-`, `*`, unary `-` wrap;
`/` and `%` truncate toward zero and panic on a zero divisor or on the
`i32::MIN / -1` overflow (that panic is unconditional in Rust). -/

def i32Min : Int := -(2 ^ 31)

def wrap32 (x : Int) : Int := (x + 2 ^ 31) % 2 ^ 32 - 2 ^ 31

def add32 (a b : Int) : Int := wrap32 (a + b)

def sub32 (a b : Int) : Int := wrap32 (a - b)

def mul32 (a b : Int) : Int := wrap32 (a * b)

def neg32 (a : Int) : Int := wrap32 (-a)

/-- Rust `i32` division: truncating; panics on division by zero and on
`i32::MIN / -1`. -/
def div32 (a b : Int) : RRes ε Int :=
  if b = 0 then .panicked
  else if a = i32Min ∧ b = -1 then .panicked
  else .ok (a.tdiv b)

/-- Rust `i32` remainder: sign follows the dividend; same panics as `div32`. -/
def mod32 (a b : Int) : RRes ε Int :=
  if b = 0 then .panicked
  else if a = i32Min ∧ b = -1 then .panicked
  else .ok (a.tmod b)

/-- Rust `i32::from(bool)`. -/
def i32OfBool (b : Bool) : Int := if b then 1 else 0

/-! ## Semantic errors (ir_builder/err.rs)

The error enum itself is not under `src/`; its variants are modelled from
their construction sites in type_checker.rs / ir_builder.rs and from the
closed taxonomy in the specification.  `TypeMismatch.expected` is the
string the Rust code builds (`stringify!` of a pattern, or the `Debug`
rendering of a type); the exact rendering of the `Debug` case is
immaterial to every claim, and `debugAstTy` below writes it brace-free. -/

inductive SemanticError where
  | UnknownName (name : String)
  | DuplicateName (name : String)
  | TypeMismatch (expected : String) (found : AstTy)
  | RequireConstant
  | IllegalArrayDim
  | TooMuchElement
  | CannotModifyConstValue (name : String)
  | RequireLValue
  | ExpectedFunction (name : String)
  | BreakOutsideLoop
  | ContinueOutsideLoop
  deriving Repr

mutual

/-- Brace-free stand-in for the derived `Debug` rendering of `AstTy`
used in `assert_type_eq`'s `format!("{expected:?}")`.  Only equality of
whole results ever looks at this string; no claim depends on its shape. -/
def debugAstTy : AstTy → String
  | .Unknown => "Unknown"
  | .Void => "Void"
  | .Int => "Int"
  | .Bool => "Bool"
  | .Func r p => "Func(" ++ debugAstTy r ++ ", [" ++ debugAstTyList p ++ "])"
  | .Array s e => "Array(" ++ toString s ++ ", " ++ debugAstTy e ++ ")"
  | .Ptr e => "Ptr(" ++ debugAstTy e ++ ")"

def debugAstTyList : List AstTy → String
  | [] => ""
  | [x] => debugAstTy x
  | x :: xs => debugAstTy x ++ ", " ++ debugAstTyList xs

end

/-- type_checker.rs `assert_type_eq` (uses the hand-written `PartialEq`). -/
def assert_type_eq (expected found : AstTy) : RRes SemanticError Unit :=
  if astTyEq expected found then .ok () else
    .err (.TypeMismatch (debugAstTy expected) found)

/-! ## Scope table (context.rs `Scope` / `ScopeBuilder`)

A scope's `HashMap<String, T>` is modelled as an association list
(`insertion order irrelevant` per the specification); the stack grows at
the head, so head = innermost, matching the Rust `Vec` iterated in
reverse by `find_name_rec`. -/

/-- One lexical scope (context.rs `Scope<T>`). -/
structure Scope (T : Type) where
  vars : List (String × T)
  deriving Repr

namespace Scope

def new : Scope T := ⟨[]⟩

/-- context.rs `Scope::find`. -/
def find (s : Scope T) (name : String) : Option T :=
  (s.vars.find? (fun p => p.1 = name)).map (·.2)

/-- context.rs `Scope::insert`: fails (returning `none`, no mutation)
when `name` is already present, otherwise inserts. -/
def insert (s : Scope T) (name : String) (value : T) : Option (Scope T) :=
  match s.find name with
  | some _ => none
  | none => some ⟨(name, value) :: s.vars⟩

end Scope

/-- Stack of scopes, head innermost (context.rs `ScopeBuilder<T>`). -/
structure ScopeBuilder (T : Type) where
  scopes : List (Scope T)
  deriving Repr

/-- Outcome of `ScopeBuilder::insert`: Rust returns `Option<&T>` but
panics (`expect("No scope found")`) on an empty stack; `dup` models the
`None` (occupied, nothing mutated) outcome. -/
inductive InsertOutcome (T : Type) where
  | ok (sb : ScopeBuilder T)
  | dup
  | noScope
  deriving Repr

namespace ScopeBuilder

def new : ScopeBuilder T := ⟨[]⟩

/-- context.rs `ScopeBuilder::push_scope`. -/
def push_scope (sb : ScopeBuilder T) : ScopeBuilder T :=
  ⟨Scope.new :: sb.scopes⟩

/-- context.rs `ScopeBuilder::pop_scope`. -/
def pop_scope (sb : ScopeBuilder T) : ScopeBuilder T :=
  ⟨sb.scopes.tail⟩

/-- context.rs `ScopeBuilder::find_name_rec`: innermost-to-outermost
(the stack's head is the innermost scope). -/
def findRec (name : String) : List (Scope T) → Option T
  | [] => none
  | s :: rest =>
    match s.find name with
    | some v => some v
    | none => findRec name rest

/-- context.rs `ScopeBuilder::find_name_rec`. -/
def find_name_rec (sb : ScopeBuilder T) (name : String) : Option T :=
  findRec name sb.scopes

/-- context.rs `ScopeBuilder::insert`: into the innermost scope only. -/
def insert (sb : ScopeBuilder T) (name : String) (value : T) : InsertOutcome T :=
  match sb.scopes with
  | [] => .noScope
  | s :: rest =>
    match s.insert name value with
    | some s' => .ok ⟨s' :: rest⟩
    | none => .dup

/-- An insert whose `Option` result the Rust caller discards: a duplicate
keeps the old stack; an empty stack still panics. -/
def insertDiscard (sb : ScopeBuilder T) (name : String) (value : T) :
    RRes ε (ScopeBuilder T) :=
  match sb.insert name value with
  | .ok sb' => .ok sb'
  | .dup => .ok sb
  | .noScope => .panicked

/-- An insert whose `Option` result the Rust caller turns into a
`DuplicateName` error via `ok_or(..)?`. -/
def insertOrDup (sb : ScopeBuilder T) (name : String) (value : T) :
    RRes SemanticError (ScopeBuilder T) :=
  match sb.insert name value with
  | .ok sb' => .ok sb'
  | .dup => .err (.DuplicateName name)
  | .noScope => .panicked

end ScopeBuilder

/-! ## Syntax tree (ast.rs)

The Rust single-use expression structs (`LVal`, `AssignExpr`, `UnaryExpr`,
`BinaryExpr`, `CallExpr`) are inlined into the constructors of `Expr`,
keeping their field names and order; `Ident` is reduced to its `name`
(its `span` is never read by the checked pipeline) and `Subs` to its
`subs` list (its `span` is likewise never read). -/

inductive UnaryOp where
  | Neg
  | Pos
  | Not
  deriving Repr, DecidableEq

inductive BinaryOp where
  | Add
  | Sub
  | Mul
  | Div
  | Mod
  | Gt
  | Lt
  | Ge
  | Le
  | Eq
  | Ne
  | And
  | Or
  deriving Repr, DecidableEq

mutual

/-- ast.rs `LiteralKind`: an integer literal or an array literal carrying
its recorded size alongside its element literals. -/
inductive LiteralKind where
  | Integer (v : Int)
  | Array (siz : Nat) (vals : List LiteralExpr)

/-- ast.rs `LiteralExpr`. -/
inductive LiteralExpr where
  | mk (kind : LiteralKind) (span : Span) (ty : AstTy)

end

def LiteralExpr.kind : LiteralExpr → LiteralKind
  | .mk k _ _ => k

def LiteralExpr.span : LiteralExpr → Span
  | .mk _ s _ => s

def LiteralExpr.ty : LiteralExpr → AstTy
  | .mk _ _ t => t

/-- ast.rs `LiteralExpr::get_int`. -/
def LiteralExpr.get_int : LiteralExpr → Option Int
  | .mk (.Integer v) _ _ => some v
  | _ => none

inductive Expr where
  | LVal (ident : String) (subs : Option (List Expr)) (span : Span)
      (ty : AstTy) (is_lvalue : Bool)
  | Assign (lhs rhs : Expr) (allow_assign_const : Bool) (span : Span) (ty : AstTy)
  | Literal (lit : LiteralExpr)
  | Unary (op : UnaryOp) (sub_expr : Expr) (span : Span) (ty : AstTy)
  | Binary (op : BinaryOp) (lhs rhs : Expr) (span : Span) (ty : AstTy)
  | Call (func : String) (args : List Expr) (span : Span) (ty : AstTy)

/-- ast.rs `Expr::ty`. -/
def Expr.ty : Expr → AstTy
  | .LVal _ _ _ t _ => t
  | .Assign _ _ _ _ t => t
  | .Literal l => l.ty
  | .Unary _ _ _ t => t
  | .Binary _ _ _ _ t => t
  | .Call _ _ _ t => t

/-- ast.rs `Expr::span`. -/
def Expr.span : Expr → Span
  | .LVal _ _ s _ _ => s
  | .Assign _ _ _ s _ => s
  | .Literal l => l.span
  | .Unary _ _ s _ => s
  | .Binary _ _ _ s _ => s
  | .Call _ _ s _ => s

mutual

/-- ast.rs `InitVal`. -/
inductive InitVal where
  | mk (ty : AstTy) (kind : InitValKind) (span : Span)

/-- ast.rs `InitValKind`. -/
inductive InitValKind where
  | Expr (e : Expr)
  | ArrayVal (vals : List InitVal)
  | Const (lit : LiteralExpr)

end

def InitVal.ty : InitVal → AstTy
  | .mk t _ _ => t

def InitVal.kind : InitVal → InitValKind
  | .mk _ k _ => k

def InitVal.span : InitVal → Span
  | .mk _ _ s => s

inductive PrimitiveTy where
  | Integer
  deriving Repr, DecidableEq

inductive TyIdentKind where
  | Primitive (p : PrimitiveTy)
  | Void
  deriving Repr, DecidableEq

structure TypeIdent where
  kind : TyIdentKind
  span : Span
  deriving Repr, DecidableEq

/-- ast.rs `SubDecl` (one declared name of a declaration statement). -/
structure SubDecl where
  ident : String
  subs : Option (List Expr)
  init_val : Option InitVal
  span : Span
  ty : AstTy

/-- ast.rs `Decl`. -/
structure Decl where
  is_const : Bool
  ty_ident : TypeIdent
  sub_decls : List SubDecl
  span : Span

/-- ast.rs `FuncParam`. -/
structure FuncParam where
  ident : String
  subs : Option (List Expr)
  ty_ident : TypeIdent
  ty : AstTy
  span : Span

mutual

/-- ast.rs `Stmt`; the single-use structs `IfStmt`, `WhileStmt` and
`ReturnStmt` are inlined with their field names kept. -/
inductive Stmt where
  | Expr (e : Expr)
  | Block (b : BlockStmt)
  | If (cond : Expr) (then_block : Stmt) (else_block : Option Stmt) (span : Span)
  | While (cond : Expr) (body : Stmt) (span : Span)
  | Break (span : Span)
  | Continue (span : Span)
  | Return (val : Option Expr) (span : Span)
  | Empty (span : Span)

/-- ast.rs `BlockStmt`. -/
inductive BlockStmt where
  | mk (block_items : List BlockItem) (span : Span)

/-- ast.rs `BlockItem`. -/
inductive BlockItem where
  | Stmt (s : Stmt)
  | Decl (d : Decl)

end

def BlockStmt.block_items : BlockStmt → List BlockItem
  | .mk items _ => items

/-- ast.rs `AstFunc`. -/
structure AstFunc where
  ident : String
  params : List FuncParam
  ret_ty_ident : TypeIdent
  body : BlockStmt
  span : Span

/-- ast.rs `ProgramItem`. -/
inductive ProgramItem where
  | Decl (d : Decl)
  | Func (f : AstFunc)

/-- ast.rs `Program`. -/
structure Program where
  program_items : List ProgramItem

/-- context.rs `TyInfo`: symbol information tracked by the Type Checker. -/
structure TyInfo where
  ty : AstTy
  const_val : Option LiteralExpr
  is_const : Bool

/-- ast.rs `matches!(ty, AstTy::Array { .. })` as used in `visit_lexpr`. -/
def astTyIsArray : AstTy → Bool
  | .Array _ _ => true
  | _ => false

/-! ## Type Checker (type_checker.rs) — expression visitors

Each `visit_*` method mutated its node in place and returned an optional
folded literal; here the visitor returns the rewritten node together with
that optional literal.  Expression visitors never touch the scope stack,
so they take it read-only. -/

/-- `expect_type!(v, AstTy::Int)`. -/
def expectTyInt (t : AstTy) : RRes SemanticError Unit :=
  match t with
  | .Int => .ok ()
  | _ => .err (.TypeMismatch "AstTy::Int" t)

/-- `expect_type!(v, AstTy::Bool)`. -/
def expectTyBool (t : AstTy) : RRes SemanticError Unit :=
  match t with
  | .Bool => .ok ()
  | _ => .err (.TypeMismatch "AstTy::Bool" t)

/-- `expect_type!(v, AstTy::Int | AstTy::Bool)`. -/
def expectTyIntOrBool (t : AstTy) : RRes SemanticError Unit :=
  match t with
  | .Int => .ok ()
  | .Bool => .ok ()
  | _ => .err (.TypeMismatch "AstTy::Int | AstTy::Bool" t)

/-- `matches!(op, Add | Sub | Mul | Div | Mod | Lt | Le | Gt | Ge | Eq | Ne)`
(the operators legal on `(Int, Int)`). -/
def BinaryOp.isArithOrCmp : BinaryOp → Bool
  | .And | .Or => false
  | _ => true

/-- The operator legality table of `visit_binary_expr` (lines 543-547). -/
def binLegal (op : BinaryOp) (lhs_ty rhs_ty : AstTy) : Bool :=
  match lhs_ty, rhs_ty with
  | .Int, .Int => op.isArithOrCmp
  | .Bool, .Bool => !op.isArithOrCmp
  | _, _ => false

/-- The `expected` string of the `visit_binary_expr` error branch. -/
def binExpectedStr (op : BinaryOp) : String :=
  if op.isArithOrCmp then "AstTy::Int" else "AstTy::Bool"

/-- The result-type table of `visit_binary_expr` (lines 559-562):
arithmetic yields `Int`, comparisons and logicals yield `Bool`. -/
def binResultTy (op : BinaryOp) : AstTy :=
  match op with
  | .Add | .Sub | .Mul | .Div | .Mod => .Int
  | _ => .Bool

/-- The constant-fold evaluation of `visit_binary_expr` (lines 571-585):
Rust `i32` arithmetic (wrapping for `+`, `-`, `*`; truncating and
panicking `/`, `%`), comparisons and logicals via `i32::from(bool)`. -/
def evalBinOp : BinaryOp → Int → Int → RRes SemanticError Int
  | .Add, l, r => .ok (add32 l r)
  | .Sub, l, r => .ok (sub32 l r)
  | .Mul, l, r => .ok (mul32 l r)
  | .Div, l, r => div32 l r
  | .Mod, l, r => mod32 l r
  | .Lt, l, r => .ok (i32OfBool (l < r))
  | .Le, l, r => .ok (i32OfBool (l ≤ r))
  | .Gt, l, r => .ok (i32OfBool (r < l))
  | .Ge, l, r => .ok (i32OfBool (r ≤ l))
  | .Eq, l, r => .ok (i32OfBool (l == r))
  | .Ne, l, r => .ok (i32OfBool (l != r))
  | .And, l, r => .ok (i32OfBool (l != 0 && r != 0))
  | .Or, l, r => .ok (i32OfBool (l != 0 || r != 0))

/-- The argument/parameter check of `visit_call_expr` (lines 608-613):
`args.zip(param_tys)` truncates to the shorter list, so no
argument-count comparison ever happens. -/
def zipAssertTypes : List AstTy → List AstTy → RRes SemanticError Unit
  | a :: as_, p :: ps => do
      let _ ← assert_type_eq a p
      zipAssertTypes as_ ps
  | _, _ => .ok ()

/-- The in-place replacement `if let Some(v) = &folded { *expr = Literal(v) }`
performed on a just-visited child. -/
def foldReplace (e : Expr) : Option LiteralExpr → Expr
  | some v => .Literal v
  | none => e

/-- type_checker.rs `visit_literal_expr`: integer literals get type `Int`;
an `Array` literal kind reaching this visitor is `unreachable!()`. -/
def visit_literal_expr (expr : LiteralExpr) : RRes SemanticError (Expr × Option LiteralExpr) :=
  match expr with
  | .mk (.Integer v) sp _ =>
      let e' : LiteralExpr := .mk (.Integer v) sp .Int
      .ok (.Literal e', some e')
  | _ => .panicked

mutual

/-- type_checker.rs `visit_expr` (dispatch; the `LVal` case is
`visit_lexpr(expr, false)`, whose `LVal` arm is `visit_lval_inner`). -/
def visit_expr (sc : ScopeBuilder TyInfo) (e : Expr) :
    RRes SemanticError (Expr × Option LiteralExpr) :=
  match e with
  | .LVal i su sp ty lv => visit_lval_inner sc i su sp ty lv false
  | .Assign lhs rhs ac sp ty => visit_assign_expr sc lhs rhs ac sp ty
  | .Literal lit => visit_literal_expr lit
  | .Unary op sub sp ty => visit_unary_expr sc op sub sp ty
  | .Binary op lhs rhs sp ty => visit_binary_expr sc op lhs rhs sp ty
  | .Call f args sp ty => visit_call_expr sc f args sp ty
termination_by (sizeOf e, 1)

/-- type_checker.rs `visit_lexpr`: a non-`LVal` node is `RequireLValue`;
the `LVal` arm is `visit_lval_inner` below. -/
def visit_lexpr (sc : ScopeBuilder TyInfo) (expr : Expr) (is_lvalue : Bool) :
    RRes SemanticError (Expr × Option LiteralExpr) :=
  match expr with
  | .LVal name subs span ty old_lv =>
      visit_lval_inner sc name subs span ty old_lv is_lvalue
  | _ => .err .RequireLValue
termination_by (sizeOf expr, 1)

/-- The `LVal` arm of type_checker.rs `visit_lexpr` (lines 428-467):
resolve the name, forbid mutating a `const`, type the subscripts
(descending one `Array`/`Ptr` level each), and return the symbol's
constant value when it is a non-array constant. -/
def visit_lval_inner (sc : ScopeBuilder TyInfo) (name : String)
    (subs : Option (List Expr)) (span : Span) (_ty : AstTy) (_old_lv : Bool)
    (is_lvalue : Bool) : RRes SemanticError (Expr × Option LiteralExpr) :=
  match sc.find_name_rec name with
  | none => .err (.UnknownName name)
  | some ty_info =>
    if ty_info.is_const && is_lvalue then
      .err (.CannotModifyConstValue name)
    else
      match subs with
      | some subs_list => do
          let (subs', cur_ty) ← visit_lexpr_subs sc ty_info.ty subs_list
          let literal := if ty_info.is_const && !astTyIsArray ty_info.ty
            then ty_info.const_val else none
          pure (Expr.LVal name (some subs') span cur_ty is_lvalue, literal)
      | none =>
          let literal := if ty_info.is_const && !astTyIsArray ty_info.ty
            then ty_info.const_val else none
          .ok (Expr.LVal name none span ty_info.ty is_lvalue, literal)
termination_by (sizeOf subs, 0)

/-- The subscript loop of `visit_lexpr` (lines 443-455): visit each
subscript, require `Int`, descend `cur_ty` one aggregate level. -/
def visit_lexpr_subs (sc : ScopeBuilder TyInfo) (cur_ty : AstTy) :
    (subs : List Expr) → RRes SemanticError (List Expr × AstTy)
  | [] => .ok ([], cur_ty)
  | sub :: rest => do
      let (sub', _) ← visit_expr sc sub
      let _ ← expectTyInt sub'.ty
      match cur_ty with
      | .Array _ elem_ty => do
          let (rest', t) ← visit_lexpr_subs sc elem_ty rest
          pure (sub' :: rest', t)
      | .Ptr elem_ty => do
          let (rest', t) ← visit_lexpr_subs sc elem_ty rest
          pure (sub' :: rest', t)
      | _ => .err (.TypeMismatch "ArrayType" cur_ty)
termination_by subs => (sizeOf subs, 1)

/-- type_checker.rs `visit_assign_expr`.  Note the node's own `ty` field
is left untouched by the source. -/
def visit_assign_expr (sc : ScopeBuilder TyInfo) (lhs rhs : Expr)
    (allow_assign_const : Bool) (span : Span) (ty : AstTy) :
    RRes SemanticError (Expr × Option LiteralExpr) := do
  let (lhs', _) ← visit_lexpr sc lhs true
  let (rhs0, rval) ← visit_expr sc rhs
  let rhs' := foldReplace rhs0 rval
  let _ ← expectTyIntOrBool lhs'.ty
  pure (Expr.Assign lhs' rhs' allow_assign_const span ty, rval)
termination_by (sizeOf (Expr.Assign lhs rhs allow_assign_const span ty), 0)

/-- type_checker.rs `visit_unary_expr`.  `Not` folds to the *truthiness*
`i32::from(x != 0)` of the operand, and keeps the operand's type. -/
def visit_unary_expr (sc : ScopeBuilder TyInfo) (op : UnaryOp)
    (sub_expr : Expr) (span : Span) (_ty : AstTy) :
    RRes SemanticError (Expr × Option LiteralExpr) := do
  let (se0, sub_expr_val) ← visit_expr sc sub_expr
  let se := foldReplace se0 sub_expr_val
  let sub_expr_ty := se.ty
  match op with
  | .Neg => do
      let _ ← expectTyInt sub_expr_ty
      let result := (sub_expr_val.bind LiteralExpr.get_int).map
        (fun x => (.mk (.Integer (neg32 x)) span .Int : LiteralExpr))
      pure (Expr.Unary .Neg se span .Int, result)
  | .Pos => do
      let _ ← expectTyInt sub_expr_ty
      pure (Expr.Unary .Pos se span .Int, sub_expr_val)
  | .Not => do
      let _ ← expectTyIntOrBool sub_expr_ty
      let t := se.ty
      let result := (sub_expr_val.bind LiteralExpr.get_int).map
        (fun x => (.mk (.Integer (i32OfBool (x != 0))) span t : LiteralExpr))
      pure (Expr.Unary .Not se span t, result)
termination_by (sizeOf (Expr.Unary op sub_expr span _ty), 0)

/-- type_checker.rs `visit_binary_expr`: visit and replace both operands,
check the operator legality table, and fold when both replaced operands
are integer-kind literals; the folded span runs from the left operand's
start to the right operand's end. -/
def visit_binary_expr (sc : ScopeBuilder TyInfo) (op : BinaryOp)
    (lhs rhs : Expr) (span : Span) (_ty : AstTy) :
    RRes SemanticError (Expr × Option LiteralExpr) := do
  let (lhs0, lval) ← visit_expr sc lhs
  let (rhs0, rval) ← visit_expr sc rhs
  let lhs' := foldReplace lhs0 lval
  let rhs' := foldReplace rhs0 rval
  if !binLegal op lhs'.ty rhs'.ty then
    .err (.TypeMismatch (binExpectedStr op) lhs'.ty)
  else
    let result_ty := binResultTy op
    match lhs', rhs' with
    | .Literal (.mk (.Integer lv) lspan _), .Literal (.mk (.Integer rv) rspan _) => do
        let result ← evalBinOp op lv rv
        pure (Expr.Binary op lhs' rhs' span result_ty,
          some (.mk (.Integer result) ⟨lspan.start, rspan.stop⟩ result_ty))
    | _, _ => pure (Expr.Binary op lhs' rhs' span result_ty, none)
termination_by (sizeOf (Expr.Binary op lhs rhs span _ty), 0)

/-- type_checker.rs `visit_call_expr`: visit every argument, resolve the
callee, require a function type, and compare argument types with
parameter types pairwise over the truncating `zip`. -/
def visit_call_expr (sc : ScopeBuilder TyInfo) (func : String)
    (args : List Expr) (span : Span) (_ty : AstTy) :
    RRes SemanticError (Expr × Option LiteralExpr) := do
  let args' ← visit_call_args sc args
  match sc.find_name_rec func with
  | none => .err (.UnknownName func)
  | some info =>
    match info.ty.as_func with
    | none => .err (.ExpectedFunction func)
    | some (ret_ty, param_tys) => do
        let _ ← zipAssertTypes (args'.map Expr.ty) param_tys
        pure (Expr.Call func args' span ret_ty, none)
termination_by (sizeOf (Expr.Call func args span _ty), 0)

/-- The argument loop of `visit_call_expr` (lines 599-600): each argument
is visited for its side effects on the tree; the folded literal (if any)
is discarded, so argument roots are never replaced. -/
def visit_call_args (sc : ScopeBuilder TyInfo) :
    (args : List Expr) → RRes SemanticError (List Expr)
  | [] => .ok []
  | a :: rest => do
      let (a', _) ← visit_expr sc a
      let rest' ← visit_call_args sc rest
      pure (a' :: rest')
termination_by args => (sizeOf args, 1)

end

/-! ## Type Checker — declarations, initializers, statements -/

/-- ast.rs `Expr::as_literal` (generated by `EnumAsInner`). -/
def Expr.as_literal : Expr → Option LiteralExpr
  | .Literal l => some l
  | _ => none

/-- type_checker.rs `visit_ty`. -/
def visit_ty (ty_def : TypeIdent) : RRes SemanticError AstTy :=
  match ty_def.kind with
  | .Primitive .Integer => .ok .Int
  | .Void => .ok .Void

/-- The first loop of `build_ast_ty` (lines 86-95): each subscript must
fold to a constant, must be positive, and is replaced by its literal. -/
def build_ast_ty_subs (sc : ScopeBuilder TyInfo) :
    List Expr → RRes SemanticError (List Expr)
  | [] => .ok []
  | sub :: rest => do
      let (_, lit?) ← visit_expr sc sub
      match lit? with
      | none => .err .RequireConstant
      | some literal => do
          let v ← RRes.unwrapOpt literal.get_int
          if v ≤ 0 then .err .IllegalArrayDim
          else do
            let rest' ← build_ast_ty_subs sc rest
            pure (Expr.Literal literal :: rest')

/-- The second loop of `build_ast_ty` (lines 97-104): wrap the base type
in `Array` layers, iterating the subscripts in reverse so the first
subscript becomes the outermost dimension. -/
def buildArrayTyRev (base : AstTy) : List Expr → RRes SemanticError AstTy
  | [] => .ok base
  | sub :: rest => do
      let t ← buildArrayTyRev base rest
      let lit ← RRes.unwrapOpt sub.as_literal
      let v ← RRes.unwrapOpt lit.get_int
      pure (AstTy.Array v.toNat t)

/-- type_checker.rs `build_ast_ty`. -/
def build_ast_ty (sc : ScopeBuilder TyInfo) (base_ty : AstTy)
    (subs : Option (List Expr)) :
    RRes SemanticError (Option (List Expr) × AstTy) :=
  match subs with
  | none => .ok (none, base_ty)
  | some subs_list => do
      let subs' ← build_ast_ty_subs sc subs_list
      let ty ← buildArrayTyRev base_ty subs'
      pure (some subs', ty)

mutual

/-- type_checker.rs `fix_array_literal` (lines 41-61): an integer literal
checks against `Int` unchanged; an array literal with more elements than
the target dimension is a `TooMuchElement` error, otherwise its elements
are fixed recursively and its *recorded size* and type are back-filled
from the target — the element list itself is not extended. -/
def fix_array_literal (literal : LiteralExpr) (expected_ty : AstTy) :
    RRes SemanticError LiteralExpr :=
  match literal, expected_ty with
  | .mk (.Integer v) sp lty, .Int => .ok (.mk (.Integer v) sp lty)
  | .mk (.Array literal_siz literal_vals) sp _lty, .Array ty_siz elem_ty =>
      if literal_siz > ty_siz then .err .TooMuchElement
      else do
        let vals' ← fix_array_literal_list literal_vals elem_ty
        pure (.mk (.Array ty_siz vals') sp (.Array ty_siz elem_ty))
  | lit, _ => do
      let _ ← assert_type_eq expected_ty .Unknown
      pure lit

/-- The `try_for_each` element loop of `fix_array_literal`. -/
def fix_array_literal_list :
    List LiteralExpr → AstTy → RRes SemanticError (List LiteralExpr)
  | [], _ => .ok []
  | v :: rest, elem_ty => do
      let v' ← fix_array_literal v elem_ty
      let rest' ← fix_array_literal_list rest elem_ty
      pure (v' :: rest')

end

mutual

/-- type_checker.rs `fix_array_init_val` (lines 63-82): a scalar
initializer must equal the expected type; an array initializer with more
elements than the dimension is `TooMuchElement`, otherwise elements are
fixed recursively and the node's type back-filled (no length change). -/
def fix_array_init_val (init_val : InitVal) (expected_ty : AstTy) :
    RRes SemanticError InitVal :=
  match init_val, expected_ty with
  | .mk ty (.Expr e) sp, _ => do
      let _ ← assert_type_eq expected_ty e.ty
      pure (.mk ty (.Expr e) sp)
  | .mk _ty (.ArrayVal elem_vals) sp, .Array ty_siz elem_ty =>
      if elem_vals.length > ty_siz then .err .TooMuchElement
      else do
        let vals' ← fix_array_init_val_list elem_vals elem_ty
        pure (.mk (.Array ty_siz elem_ty) (.ArrayVal vals') sp)
  | iv, _ => do
      let _ ← assert_type_eq expected_ty .Unknown
      pure iv

/-- The `try_for_each` element loop of `fix_array_init_val`. -/
def fix_array_init_val_list :
    List InitVal → AstTy → RRes SemanticError (List InitVal)
  | [], _ => .ok []
  | v :: rest, elem_ty => do
      let v' ← fix_array_init_val v elem_ty
      let rest' ← fix_array_init_val_list rest elem_ty
      pure (v' :: rest')

end

mutual

/-- type_checker.rs `visit_const_init_val`: a scalar initializer must
fold to a literal (else `RequireConstant`); a nested list is visited
recursively and packed into an `Array` literal (recorded size = element
count, type `Unknown` at this point); a `Const` kind is `unreachable!()`. -/
def visit_const_init_val (sc : ScopeBuilder TyInfo) :
    InitVal → RRes SemanticError (InitVal × LiteralExpr)
  | .mk _ty (.Expr x) sp => do
      let (x', lit?) ← visit_expr sc x
      match lit? with
      | some literal => pure (.mk x'.ty (.Expr x') sp, literal)
      | none => .err .RequireConstant
  | .mk ty (.ArrayVal vals) sp => do
      let pairs ← visit_const_init_val_list sc vals
      pure (.mk ty (.ArrayVal (pairs.map Prod.fst)) sp,
        .mk (.Array pairs.length (pairs.map Prod.snd)) sp .Unknown)
  | .mk _ (.Const _) _ => .panicked

def visit_const_init_val_list (sc : ScopeBuilder TyInfo) :
    List InitVal → RRes SemanticError (List (InitVal × LiteralExpr))
  | [] => .ok []
  | v :: rest => do
      let p ← visit_const_init_val sc v
      let ps ← visit_const_init_val_list sc rest
      pure (p :: ps)

end

mutual

/-- type_checker.rs `visit_init_val` (the non-constant variant): a scalar
initializer is visited, its type written back, and its root replaced by
the folded literal when one exists; array elements recurse. -/
def visit_init_val (sc : ScopeBuilder TyInfo) :
    InitVal → RRes SemanticError InitVal
  | .mk _ty (.Expr expr) sp => do
      let (e', lit?) ← visit_expr sc expr
      pure (.mk e'.ty (.Expr (foldReplace e' lit?)) sp)
  | .mk ty (.ArrayVal vals) sp => do
      let vals' ← visit_init_val_list sc vals
      pure (.mk ty (.ArrayVal vals') sp)
  | .mk _ (.Const _) _ => .panicked

def visit_init_val_list (sc : ScopeBuilder TyInfo) :
    List InitVal → RRes SemanticError (List InitVal)
  | [] => .ok []
  | v :: rest => do
      let v' ← visit_init_val sc v
      let rest' ← visit_init_val_list sc rest
      pure (v' :: rest')

end

/-- The per-`sub_decl` loop of type_checker.rs `visit_global_decl`
(lines 219-247).  The trailing `self.scopes.insert(..)` discards the
`Option` result: a duplicate name in the same scope is silently ignored
and the existing binding kept. -/
def visit_global_decl_subs (sc : ScopeBuilder TyInfo) (is_const : Bool)
    (base_ty : AstTy) :
    List SubDecl → RRes SemanticError (ScopeBuilder TyInfo × List SubDecl)
  | [] => .ok (sc, [])
  | sd :: rest => do
      let (subs', ty) ← build_ast_ty sc base_ty sd.subs
      let (init_val', lit?) ← match sd.init_val with
        | some iv => do
            let (iv', literal0) ← visit_const_init_val sc iv
            let literal ← match ty with
              | .Int => do
                  let _ ← assert_type_eq ty literal0.ty
                  pure literal0
              | .Array _ _ => fix_array_literal literal0 ty
              | _ => (.panicked : RRes SemanticError LiteralExpr)
            pure (some (InitVal.mk iv'.ty (.Const literal) iv'.span), some literal)
        | none => pure (none, none)
      if is_const && lit?.isNone then .err .RequireConstant
      else do
        let info : TyInfo := ⟨ty, if is_const then lit? else none, is_const⟩
        let sc' ← sc.insertDiscard sd.ident info
        let (sc'', rest') ← visit_global_decl_subs sc' is_const base_ty rest
        pure (sc'', { sd with subs := subs', init_val := init_val', ty := ty } :: rest')

/-- type_checker.rs `visit_global_decl`. -/
def visit_global_decl (sc : ScopeBuilder TyInfo) (decl : Decl) :
    RRes SemanticError (ScopeBuilder TyInfo × Decl) := do
  let base ← visit_ty decl.ty_ident
  let (sc', subs') ← visit_global_decl_subs sc decl.is_const base decl.sub_decls
  pure (sc', { decl with sub_decls := subs' })

/-- The per-`sub_decl` loop of type_checker.rs `visit_decl_stmt`
(lines 340-364).  As in the global case, the final `insert`'s result is
discarded, so a duplicate local declaration is silently ignored. -/
def visit_decl_stmt_subs (sc : ScopeBuilder TyInfo) (is_const : Bool)
    (base_ty : AstTy) :
    List SubDecl → RRes SemanticError (ScopeBuilder TyInfo × List SubDecl)
  | [] => .ok (sc, [])
  | sd :: rest => do
      let (subs', ty) ← build_ast_ty sc base_ty sd.subs
      let init_val' ← match sd.init_val with
        | some iv => do
            let iv' ← visit_init_val sc iv
            let iv'' ← match ty with
              | .Int => do
                  let _ ← assert_type_eq ty iv'.ty
                  pure iv'
              | .Array _ _ => fix_array_init_val iv' ty
              | _ => (.panicked : RRes SemanticError InitVal)
            pure (some iv'')
        | none => pure (none : Option InitVal)
      if is_const && sd.init_val.isNone then .err .RequireConstant
      else do
        let ty_info : TyInfo := ⟨ty, none, is_const⟩
        let sc' ← sc.insertDiscard sd.ident ty_info
        let (sc'', rest') ← visit_decl_stmt_subs sc' is_const base_ty rest
        pure (sc'', { sd with subs := subs', init_val := init_val', ty := ty } :: rest')

/-- type_checker.rs `visit_decl_stmt`. -/
def visit_decl_stmt (sc : ScopeBuilder TyInfo) (decl : Decl) :
    RRes SemanticError (ScopeBuilder TyInfo × Decl) := do
  let base ← visit_ty decl.ty_ident
  let (sc', subs') ← visit_decl_stmt_subs sc decl.is_const base decl.sub_decls
  pure (sc', { decl with sub_decls := subs' })

/-- type_checker.rs `visit_func_param`: array-dimensioned parameters
decay to `Ptr` of the built (possibly array) type. -/
def visit_func_param (sc : ScopeBuilder TyInfo) (param : FuncParam) :
    RRes SemanticError FuncParam := do
  let base_ty ← visit_ty param.ty_ident
  let (subs', ty0) ← build_ast_ty sc base_ty param.subs
  let ty := if param.subs.isSome then AstTy.Ptr ty0 else ty0
  pure { param with subs := subs', ty := ty }

/-- type_checker.rs `visit_expr_stmt`: the folded literal is discarded. -/
def visit_expr_stmt (sc : ScopeBuilder TyInfo) (e : Expr) :
    RRes SemanticError Expr := do
  let (e', _) ← visit_expr sc e
  pure e'

/-- type_checker.rs `visit_return_stmt`: the returned value's type (or
`Void`) must equal the current function's return type under the
hand-written `PartialEq`. -/
def visit_return_stmt (sc : ScopeBuilder TyInfo) (cur_func_ret_ty : AstTy)
    (val : Option Expr) (span : Span) :
    RRes SemanticError (Option Expr × Span) := do
  let (val', ret_val_ty) ← match val with
    | some expr => do
        let (e', _) ← visit_expr sc expr
        pure (some e', e'.ty)
    | none => pure ((none : Option Expr), AstTy.Void)
  let _ ← assert_type_eq ret_val_ty cur_func_ret_ty
  pure (val', span)

/-- The Type Checker's mutable state (type_checker.rs `struct TypeChecker`). -/
structure TypeChecker where
  scopes : ScopeBuilder TyInfo
  cur_func_ret_ty : AstTy

/-- type_checker.rs `visit_break_stmt`: unconditionally accepted — the
out-of-loop check is deferred to the IR Builder. -/
def visit_break_stmt (_span : Span) : RRes SemanticError Unit := .ok ()

/-- type_checker.rs `visit_continue_stmt`: unconditionally accepted. -/
def visit_continue_stmt (_span : Span) : RRes SemanticError Unit := .ok ()

/-- type_checker.rs `visit_empty_stmt`. -/
def visit_empty_stmt (_span : Span) : RRes SemanticError Unit := .ok ()

mutual

/-- type_checker.rs `visit_stmt` (dispatch). -/
def visit_stmt (tc : TypeChecker) (s : Stmt) :
    RRes SemanticError (TypeChecker × Stmt) :=
  match s with
  | .Expr x => do
      let e' ← visit_expr_stmt tc.scopes x
      pure (tc, Stmt.Expr e')
  | .Block x => do
      let (tc', b') ← visit_block_stmt tc x
      pure (tc', Stmt.Block b')
  | .If c t e sp => visit_if_stmt tc c t e sp
  | .While c b sp => visit_while_stmt tc c b sp
  | .Break sp => do
      let _ ← visit_break_stmt sp
      pure (tc, Stmt.Break sp)
  | .Continue sp => do
      let _ ← visit_continue_stmt sp
      pure (tc, Stmt.Continue sp)
  | .Return v sp => do
      let (v', sp') ← visit_return_stmt tc.scopes tc.cur_func_ret_ty v sp
      pure (tc, Stmt.Return v' sp')
  | .Empty sp => do
      let _ ← visit_empty_stmt sp
      pure (tc, Stmt.Empty sp)
termination_by (sizeOf s, 1)

/-- type_checker.rs `visit_if_stmt`: the condition must be `Bool`. -/
def visit_if_stmt (tc : TypeChecker) (cond : Expr) (then_block : Stmt)
    (else_block : Option Stmt) (span : Span) :
    RRes SemanticError (TypeChecker × Stmt) := do
  let (cond', _) ← visit_expr tc.scopes cond
  let _ ← expectTyBool cond'.ty
  let (tc1, then') ← visit_stmt tc then_block
  match else_block with
  | some els => do
      let (tc2, els') ← visit_stmt tc1 els
      pure (tc2, Stmt.If cond' then' (some els') span)
  | none => pure (tc1, Stmt.If cond' then' none span)
termination_by (sizeOf (Stmt.If cond then_block else_block span), 0)

/-- type_checker.rs `visit_while_stmt`: the condition must be `Bool`. -/
def visit_while_stmt (tc : TypeChecker) (cond : Expr) (body : Stmt)
    (span : Span) : RRes SemanticError (TypeChecker × Stmt) := do
  let (cond', _) ← visit_expr tc.scopes cond
  let _ ← expectTyBool cond'.ty
  let (tc1, body') ← visit_stmt tc body
  pure (tc1, Stmt.While cond' body' span)
termination_by (sizeOf (Stmt.While cond body span), 0)

/-- type_checker.rs `visit_block_stmt`: push a scope, visit the items,
pop the scope. -/
def visit_block_stmt (tc : TypeChecker) (b : BlockStmt) :
    RRes SemanticError (TypeChecker × BlockStmt) :=
  match b with
  | .mk items sp => do
      let tc1 := { tc with scopes := tc.scopes.push_scope }
      let (tc2, items') ← visit_block_items tc1 items
      pure ({ tc2 with scopes := tc2.scopes.pop_scope }, BlockStmt.mk items' sp)
termination_by (sizeOf b, 0)

/-- The item loop of `visit_block_stmt`. -/
def visit_block_items (tc : TypeChecker) :
    (items : List BlockItem) → RRes SemanticError (TypeChecker × List BlockItem)
  | [] => .ok (tc, [])
  | .Stmt x :: rest => do
      let (tc1, x') ← visit_stmt tc x
      let (tc2, rest') ← visit_block_items tc1 rest
      pure (tc2, BlockItem.Stmt x' :: rest')
  | .Decl d :: rest => do
      let (sc', d') ← visit_decl_stmt tc.scopes d
      let (tc2, rest') ← visit_block_items { tc with scopes := sc' } rest
      pure (tc2, BlockItem.Decl d' :: rest')
termination_by items => (sizeOf items, 0)

end

/-- The parameter loop of type_checker.rs `visit_func`. -/
def visit_func_params (sc : ScopeBuilder TyInfo) (params : List FuncParam) :
    RRes SemanticError (List FuncParam) :=
  rmapM (visit_func_param sc) params

/-- The parameter-registration loop of `visit_func` (lines 271-279):
duplicate parameter names are a `DuplicateName` error. -/
def insert_params (sc : ScopeBuilder TyInfo) :
    List FuncParam → RRes SemanticError (ScopeBuilder TyInfo)
  | [] => .ok sc
  | p :: rest => do
      let sc' ← sc.insertOrDup p.ident ⟨p.ty, none, false⟩
      insert_params sc' rest

/-- type_checker.rs `visit_func`: the function's name is registered in
the *enclosing* scope (duplicate is an error), a fresh scope holds the
parameters, and the body is checked under the declared return type. -/
def visit_func (tc : TypeChecker) (ast_func : AstFunc) :
    RRes SemanticError (TypeChecker × AstFunc) := do
  let ret_ty ← visit_ty ast_func.ret_ty_ident
  let tc := { tc with cur_func_ret_ty := ret_ty }
  let params' ← visit_func_params tc.scopes ast_func.params
  let param_tys := params'.map FuncParam.ty
  let func_info : TyInfo := ⟨AstTy.Func ret_ty param_tys, none, false⟩
  let sc1 ← tc.scopes.insertOrDup ast_func.ident func_info
  let sc2 ← insert_params sc1.push_scope params'
  let (tc4, body') ← visit_block_stmt { tc with scopes := sc2 } ast_func.body
  pure ({ tc4 with scopes := tc4.scopes.pop_scope },
    { ast_func with params := params', body := body' })

/-- type_checker.rs `push_built_in_funcs`: the six fixed runtime
signatures, inserted with the insert result discarded. -/
def push_built_in_funcs (sc : ScopeBuilder TyInfo) :
    RRes SemanticError (ScopeBuilder TyInfo) := do
  let sc ← sc.insertDiscard "getint" ⟨.Func .Int [], none, false⟩
  let sc ← sc.insertDiscard "getch" ⟨.Func .Int [], none, false⟩
  let sc ← sc.insertDiscard "getarray" ⟨.Func .Int [.Ptr .Int], none, false⟩
  let sc ← sc.insertDiscard "putint" ⟨.Func .Void [.Int], none, false⟩
  let sc ← sc.insertDiscard "putch" ⟨.Func .Void [.Int], none, false⟩
  let sc ← sc.insertDiscard "putarray" ⟨.Func .Int [.Int, .Ptr .Int], none, false⟩
  pure sc

/-- The item loop of type_checker.rs `visit_program`. -/
def visit_program_items (tc : TypeChecker) :
    List ProgramItem → RRes SemanticError (TypeChecker × List ProgramItem)
  | [] => .ok (tc, [])
  | .Decl d :: rest => do
      let (sc', d') ← visit_global_decl tc.scopes d
      let (tc2, rest') ← visit_program_items { tc with scopes := sc' } rest
      pure (tc2, ProgramItem.Decl d' :: rest')
  | .Func f :: rest => do
      let (tc1, f') ← visit_func tc f
      let (tc2, rest') ← visit_program_items tc1 rest
      pure (tc2, ProgramItem.Func f' :: rest')

/-- type_checker.rs `visit_program`: open the global scope, register the
six builtins, visit every item, close the scope. -/
def visit_program (tc : TypeChecker) (program : Program) :
    RRes SemanticError (TypeChecker × Program) := do
  let sc1 ← push_built_in_funcs tc.scopes.push_scope
  let (tc2, items') ← visit_program_items { tc with scopes := sc1 } program.program_items
  pure ({ tc2 with scopes := tc2.scopes.pop_scope }, ⟨items'⟩)

/-! ## IR Module model

The IR value types (`ir/value/*.rs`) are not under `src/`; the shapes
below are modelled from their use sites in ir_builder.rs / context.rs and
from the specification's IR data model (§3, §4.3).  Handles (`InstId`,
`BBId`, `FuncId`, `GlobalId`, `ParamId`) are arena indices, modelled as
`Nat`. -/

mutual

/-- IR type (`IrTy`): booleans are `Int 1`, integers `Int 32`. -/
inductive IrTy where
  | Void
  | Int (width : Nat)
  | Func (f : FuncTy)
  | Array (n : Nat) (elem : IrTy)
  | Ptr (elem : IrTy)

/-- Function type (`FuncTy { ret_ty, params_ty }`). -/
inductive FuncTy where
  | mk (ret_ty : IrTy) (params_ty : List IrTy)

end

def FuncTy.ret_ty : FuncTy → IrTy
  | .mk r _ => r

/-- Modelled from the spec: `IrTy::ptr_of`. -/
def IrTy.ptr_of (t : IrTy) : IrTy := .Ptr t

/-- Modelled from the spec: `IrTy::int()` — the 32-bit integer type. -/
def IrTy.int : IrTy := .Int 32

/-- Modelled from the spec: `IrTy::bool()` — the 1-bit integer type. -/
def IrTy.bool : IrTy := .Int 1

mutual

/-- context.rs `impl From<AstTy> for IrTy` (lines 198-217); `Unknown` is
`unreachable!()`, rendered as `none` and lifted to a panic at each
call site. -/
def irTyFromAstTy : AstTy → Option IrTy
  | .Void => some .Void
  | .Int => some (.Int 32)
  | .Bool => some (.Int 1)
  | .Func ret params => do
      let r ← irTyFromAstTy ret
      let ps ← irTyFromAstTyList params
      some (.Func (.mk r ps))
  | .Array siz elem => do
      let e ← irTyFromAstTy elem
      some (.Array siz e)
  | .Ptr x => do
      let e ← irTyFromAstTy x
      some (.Ptr e)
  | .Unknown => none

def irTyFromAstTyList : List AstTy → Option (List IrTy)
  | [] => some []
  | t :: ts => do
      let t' ← irTyFromAstTy t
      let ts' ← irTyFromAstTyList ts
      some (t' :: ts')

end

/-- IR constant (`Constant`): an integer or a typed aggregate. -/
inductive Constant where
  | Int (v : Int)
  | Array (ty : IrTy) (elems : List Constant)

/-- Modelled from the spec: `Constant::build_zero` — a structurally
zeroed constant of the given type. -/
def Constant.build_zero : IrTy → Constant
  | .Array n elem => .Array (.Array n elem) (List.replicate n (Constant.build_zero elem))
  | _ => .Int 0

mutual

/-- context.rs `impl From<LiteralExpr> for Constant` (lines 219-234);
the aggregate arm converts `literal.ty` (panicking on `Unknown`). -/
def constantFromLiteral : LiteralExpr → Option Constant
  | .mk (.Integer x) _ _ => some (.Int x)
  | .mk (.Array _ vals) _ ty => do
      let irty ← irTyFromAstTy ty
      let elems ← constantFromLiteralList vals
      some (.Array irty elems)

/-- The element loop of `From<LiteralExpr> for Constant`. -/
def constantFromLiteralList : List LiteralExpr → Option (List Constant)
  | [] => some []
  | v :: rest => do
      let c ← constantFromLiteral v
      let cs ← constantFromLiteralList rest
      some (c :: cs)

end

/-- IR operand (`Operand`): a discriminated handle or inline constant. -/
inductive Operand where
  | Inst (id : Nat)
  | Global (id : Nat)
  | Param (id : Nat)
  | Const (c : Constant)
  | BB (id : Nat)

/-- ir_builder.rs `matches!(addr, Operand::Param(_))`. -/
def isParamOperand : Operand → Bool
  | .Param _ => true
  | _ => false

/-- context.rs `enum IdInfo`: what a name is bound to during lowering. -/
inductive IdInfo where
  | Inst (id : Nat)
  | Func (id : Nat)
  | Global (id : Nat)
  | Param (id : Nat)
  deriving Repr

/-- context.rs `impl From<IdInfo> for Operand`: a `Func` binding is
`unreachable!()`. -/
def operandFromIdInfo : IdInfo → RRes ε Operand
  | .Inst x => .ok (.Inst x)
  | .Global x => .ok (.Global x)
  | .Param x => .ok (.Param x)
  | .Func _ => .panicked

/-- context.rs `IdInfo::as_func` (generated by `EnumAsInner`). -/
def IdInfo.as_func : IdInfo → Option Nat
  | .Func x => some x
  | _ => none

/-- The binary instruction opcodes (`BinaryInstOp`, ir/value/inst.rs). -/
inductive BinaryInstOp where
  | Add
  | Sub
  | Mul
  | Div
  | Mod
  | Gt
  | Lt
  | Ge
  | Le
  | Eq
  | Ne
  | And
  | Or
  deriving Repr, DecidableEq

/-- Modelled from the spec: `BinaryOp::to_binary_inst_kind` — the AST
operator maps to the IR opcode of the same name. -/
def BinaryOp.to_binary_inst_kind : BinaryOp → BinaryInstOp
  | .Add => .Add
  | .Sub => .Sub
  | .Mul => .Mul
  | .Div => .Div
  | .Mod => .Mod
  | .Gt => .Gt
  | .Lt => .Lt
  | .Ge => .Ge
  | .Le => .Le
  | .Eq => .Eq
  | .Ne => .Ne
  | .And => .And
  | .Or => .Or

/-- Branch terminators (`Br`): conditional branch or unconditional jump. -/
inductive Br where
  | Br (cond : Operand) (true_bb : Nat) (false_bb : Nat)
  | Jump (nxt_bb : Nat)

/-- Instruction kinds (`InstKind`), with each instruction struct's fields
inlined under its field names. -/
inductive InstKind where
  | Alloca (alloca_ty : IrTy)
  | Binary (op : BinaryInstOp) (left : Operand) (right : Operand)
  | Br (br : Br)
  | Call (func_id : Nat) (args : List Operand)
  | GEP (ptr : Operand) (indices : List Operand)
  | Load (addr : Operand)
  | Store (addr : Operand) (data : Operand)
  | RetInst (val : Option Operand)
  | ZExt (ori_val : Operand) (target_ty : IrTy)

/-- A module-level global (`Global::new(ptr_ty, name, init)`). -/
structure Global where
  ty : IrTy
  name : String
  init : Constant

/-- One built instruction: its arena id, owning basic block, kind, type.
Instructions appear in `IrFunc.insts` in build order; instructions of
one block are relatively ordered as appended at that block's end. -/
structure InstRec where
  id : Nat
  bb : Nat
  kind : InstKind
  ty : IrTy

/-- An IR function under construction (`IrFunc`), with its arenas
flattened to lists plus fresh-id counters.  `bbs` is the layout order of
basic blocks. -/
structure IrFunc where
  name : String
  ret_ty : IrTy
  is_builtin : Bool
  params : List (Nat × IrTy)
  next_param : Nat
  bbs : List Nat
  next_bb : Nat
  insts : List InstRec
  next_inst : Nat

/-- `IrFunc::new(name, ret_ty, is_builtin)`: an empty function skeleton. -/
def IrFunc.new (name : String) (ret_ty : IrTy) (is_builtin : Bool) : IrFunc :=
  ⟨name, ret_ty, is_builtin, [], 0, [], 0, [], 0⟩

/-- Modelled from the spec: `IrFunc::build_func_param` — append a fresh
parameter handle of the given type. -/
def IrFunc.build_func_param (f : IrFunc) (ty : IrTy) : IrFunc × Nat :=
  ({ f with
      params := f.params ++ [(f.next_param, ty)],
      next_param := f.next_param + 1 }, f.next_param)

/-- Modelled from the spec: `IrFunc::build_bb` — append a fresh basic
block at the end of the layout. -/
def IrFunc.build_bb (f : IrFunc) : IrFunc × Nat :=
  ({ f with bbs := f.bbs ++ [f.next_bb], next_bb := f.next_bb + 1 }, f.next_bb)

/-- Insert `x` directly after `after` in a layout list (appending when
`after` is absent). -/
def insertAfter (x after : Nat) : List Nat → List Nat
  | [] => [x]
  | b :: rest => if b = after then b :: x :: rest else b :: insertAfter x after rest

/-- Modelled from the spec: `IrFunc::build_bb_after_cur` — a fresh basic
block placed directly after the given one in layout order. -/
def IrFunc.build_bb_after_cur (f : IrFunc) (cur : Nat) : IrFunc × Nat :=
  ({ f with bbs := insertAfter f.next_bb cur f.bbs, next_bb := f.next_bb + 1 },
   f.next_bb)

/-- Modelled from the spec: `IrFunc::build_inst_at_end` — append an
instruction at the end of the given basic block. -/
def IrFunc.build_inst_at_end (f : IrFunc) (kind : InstKind) (ty : IrTy)
    (bb : Nat) : IrFunc × Nat :=
  ({ f with
      insts := f.insts ++ [⟨f.next_inst, bb, kind, ty⟩],
      next_inst := f.next_inst + 1 }, f.next_inst)

/-- Modelled from the spec: `IrFunc::get_ty` restricted through
`as_func().unwrap()` as `Context::get_func_ty` uses it. -/
def IrFunc.get_func_ty (f : IrFunc) : FuncTy :=
  .mk f.ret_ty (f.params.map Prod.snd)

/-- The IR module (Rust `Module`; renamed for Lean, which reserves the
name): flat arenas of functions and globals, handles being positions. -/
structure IrModule where
  funcs : List IrFunc
  globals : List Global

def IrModule.new : IrModule := ⟨[], []⟩

/-- `Module::build_func`. -/
def IrModule.build_func (m : IrModule) (f : IrFunc) : IrModule × Nat :=
  ({ m with funcs := m.funcs ++ [f] }, m.funcs.length)

/-- `Module::build_global`. -/
def IrModule.build_global (m : IrModule) (g : Global) : IrModule × Nat :=
  ({ m with globals := m.globals ++ [g] }, m.globals.length)

/-- `Module::get_func`. -/
def IrModule.get_func (m : IrModule) (id : Nat) : Option IrFunc :=
  m.funcs.get? id

def IrModule.set_func (m : IrModule) (id : Nat) (f : IrFunc) : IrModule :=
  { m with funcs := m.funcs.set id f }

/-- context.rs `Context`: the build cursor and the module being built. -/
structure Context where
  scope_builder : ScopeBuilder IdInfo
  cur_module : IrModule
  cur_func : Nat
  cur_bb : Nat

namespace Context

def new : Context := ⟨ScopeBuilder.new, IrModule.new, 0, 0⟩

/-- `get_cur_func_mut().unwrap()` followed by a mutation: panics when the
cursor's function id is invalid. -/
def modify_cur_func (ctx : Context) (f : IrFunc → IrFunc × α) :
    RRes ε (Context × α) :=
  match ctx.cur_module.get_func ctx.cur_func with
  | none => .panicked
  | some fn =>
      let (fn', a) := f fn
      .ok ({ ctx with cur_module := ctx.cur_module.set_func ctx.cur_func fn' }, a)

/-- context.rs `build_inst_end`. -/
def build_inst_end (ctx : Context) (inst_kind : InstKind) (ty : IrTy)
    (bb : Nat) : RRes ε (Context × Nat) :=
  ctx.modify_cur_func (fun f => f.build_inst_at_end inst_kind ty bb)

/-- context.rs `build_inst_end_of_cur`. -/
def build_inst_end_of_cur (ctx : Context) (inst_kind : InstKind) (ty : IrTy) :
    RRes ε (Context × Nat) :=
  ctx.build_inst_end inst_kind ty ctx.cur_bb

/-- context.rs `build_bb_after_cur`. -/
def build_bb_after_cur (ctx : Context) : RRes ε (Context × Nat) :=
  ctx.modify_cur_func (fun f => f.build_bb_after_cur ctx.cur_bb)

/-- context.rs `build_bb`. -/
def build_bb (ctx : Context) : RRes ε (Context × Nat) :=
  ctx.modify_cur_func IrFunc.build_bb

/-- context.rs `build_func`. -/
def build_func (ctx : Context) (f : IrFunc) : Context × Nat :=
  let (m, id) := ctx.cur_module.build_func f
  ({ ctx with cur_module := m }, id)

/-- context.rs `build_global`. -/
def build_global (ctx : Context) (g : Global) : Context × Nat :=
  let (m, id) := ctx.cur_module.build_global g
  ({ ctx with cur_module := m }, id)

/-- context.rs `build_func_param`. -/
def build_func_param (ctx : Context) (ty : IrTy) : RRes ε (Context × Nat) :=
  ctx.modify_cur_func (fun f => f.build_func_param ty)

/-- context.rs `get_func_ty` (`get_func(..).unwrap().get_ty()` then
`as_func().unwrap()`). -/
def get_func_ty (ctx : Context) (func : Nat) : RRes ε FuncTy :=
  match ctx.cur_module.get_func func with
  | none => .panicked
  | some f => .ok f.get_func_ty

/-- context.rs `set_cur_bb`. -/
def set_cur_bb (ctx : Context) (bb : Nat) : Context := { ctx with cur_bb := bb }

/-- context.rs `set_cur_func`. -/
def set_cur_func (ctx : Context) (func : Nat) : Context := { ctx with cur_func := func }

end Context

/-- ir_builder.rs `BCTarget`: where `break` and `continue` jump inside
the innermost enclosing loop. -/
structure BCTarget where
  break_target : Nat
  continue_target : Nat
  deriving Repr, DecidableEq

/-- ir_builder.rs `struct IrBuilder`.  The Rust `Vec` used as a stack
(push/`last()`/pop at the end) is modelled head-first: the head of
`loop_targets` is the innermost loop. -/
structure IrBuilder where
  ctx : Context
  loop_targets : List BCTarget

namespace IrBuilder

def new : IrBuilder := ⟨Context.new, []⟩

/-- ir_builder.rs `push_break_target`. -/
def push_break_target (b : IrBuilder) (break_target continue_target : Nat) :
    IrBuilder :=
  { b with loop_targets := ⟨break_target, continue_target⟩ :: b.loop_targets }

/-- ir_builder.rs `pop_loop_target`. -/
def pop_loop_target (b : IrBuilder) : IrBuilder :=
  { b with loop_targets := b.loop_targets.tail }

/-- ir_builder.rs `get_break_target`: the innermost entry, if any. -/
def get_break_target (b : IrBuilder) : Option Nat :=
  b.loop_targets.head?.map BCTarget.break_target

/-- ir_builder.rs `get_continue_target`. -/
def get_continue_target (b : IrBuilder) : Option Nat :=
  b.loop_targets.head?.map BCTarget.continue_target

end IrBuilder

/-! ## IR Builder (ir_builder.rs) — expression visitors

State-passing rendering of the `AstVisitor` impl: every visitor takes and
returns the builder (context + loop-target stack) and yields the operand
holding the expression's value. -/

namespace IrBuilder

/-- ir_builder.rs `visit_literal_expr` (IR side): integer literals become
inline constants, no instruction; array kinds are `unreachable!()`. -/
def visit_literal_expr (expr : LiteralExpr) : RRes SemanticError Operand :=
  match expr with
  | .mk (.Integer i) _ _ => .ok (.Const (.Int i))
  | _ => .panicked

mutual

/-- ir_builder.rs `visit_expr` (dispatch; the `LVal` case is
`visit_lexpr(expr, false)`, whose `LVal` arm is `visit_lval_inner`). -/
def visit_expr (b : IrBuilder) (e : Expr) :
    RRes SemanticError (IrBuilder × Operand) :=
  match e with
  | .LVal i su sp ty lv => visit_lval_inner b i su sp ty lv false
  | .Assign lhs rhs ac sp ty => visit_assign_expr b lhs rhs ac sp ty
  | .Literal lit => do
      let op ← visit_literal_expr lit
      pure (b, op)
  | .Unary op sub sp ty => visit_unary_expr b op sub sp ty
  | .Binary op lhs rhs sp ty => visit_binary_expr b op lhs rhs sp ty
  | .Call f args sp ty => visit_call_expr b f args sp ty
termination_by (sizeOf e, 1)

/-- ir_builder.rs `visit_lexpr`: `expr.as_l_val().unwrap()` panics on a
non-`LVal` node; the `LVal` arm is `visit_lval_inner` below. -/
def visit_lexpr (b : IrBuilder) (expr : Expr) (is_lvalue : Bool) :
    RRes SemanticError (IrBuilder × Operand) :=
  match expr with
  | .LVal name subs sp ty old_lv =>
      visit_lval_inner b name subs sp ty old_lv is_lvalue
  | _ => .panicked
termination_by (sizeOf expr, 1)

/-- The `LVal` arm of ir_builder.rs `visit_lexpr` (lines 461-498):
resolve the name to its bound address; with subscripts, emit a `GEP`
whose index list gets the implicit leading zero exactly when the base
operand is *not* a function parameter; finally `Load` unless an l-value
or array-typed (arrays decay to their address). -/
def visit_lval_inner (b : IrBuilder) (name : String)
    (subs : Option (List Expr)) (_sp : Span) (lval_ty : AstTy)
    (_old_lv : Bool) (is_lvalue : Bool) :
    RRes SemanticError (IrBuilder × Operand) := do
  let ty ← RRes.unwrapOpt (irTyFromAstTy lval_ty)
  let idinfo ← RRes.unwrapOpt (b.ctx.scope_builder.find_name_rec name)
  let addr0 ← operandFromIdInfo idinfo
  let (b1, addr) ← match subs with
    | some subs_list => do
        let indices0 : List Operand :=
          if isParamOperand addr0 then [] else [.Const (.Int 0)]
        let (b1, idxs) ← visit_expr_list b subs_list
        let (ctx', gep) ← b1.ctx.build_inst_end_of_cur
          (.GEP addr0 (indices0 ++ idxs)) (IrTy.ptr_of ty)
        pure ({ b1 with ctx := ctx' }, Operand.Inst gep)
    | none => pure (b, addr0)
  if is_lvalue || astTyIsArray lval_ty then
    pure (b1, addr)
  else do
    let (ctx', val_id) ← b1.ctx.build_inst_end_of_cur (.Load addr) ty
    pure ({ b1 with ctx := ctx' }, Operand.Inst val_id)
termination_by (sizeOf subs, 0)

/-- The subscript loop of `visit_lexpr`: each subscript expression is
lowered and its operand appended to the index list in order. -/
def visit_expr_list (b : IrBuilder) :
    (es : List Expr) → RRes SemanticError (IrBuilder × List Operand)
  | [] => .ok (b, [])
  | e :: rest => do
      let (b1, idx) ← visit_expr b e
      let (b2, idxs) ← visit_expr_list b1 rest
      pure (b2, idx :: idxs)
termination_by es => (sizeOf es, 1)

/-- ir_builder.rs `visit_assign_expr`: lower the address, lower the
value, emit a `Store`, and yield the stored value. -/
def visit_assign_expr (b : IrBuilder) (lhs rhs : Expr)
    (allow_assign_const : Bool) (span : Span) (ty : AstTy) :
    RRes SemanticError (IrBuilder × Operand) := do
  let (b1, lval) ← visit_lexpr b lhs true
  let (b2, rval) ← visit_expr b1 rhs
  let (ctx', _) ← b2.ctx.build_inst_end_of_cur (.Store lval rval) .Void
  pure ({ b2 with ctx := ctx' }, rval)
termination_by (sizeOf (Expr.Assign lhs rhs allow_assign_const span ty), 0)

/-- ir_builder.rs `visit_unary_expr` (lines 519-553): `-e` becomes
`0 - e`; `+e` passes through; `!e` widens a boolean operand to 32 bits
(`ZExt`) and then compares `Ne` against zero — i.e. it computes the
operand's truthiness. -/
def visit_unary_expr (b : IrBuilder) (op : UnaryOp) (sub_expr : Expr)
    (span : Span) (ty : AstTy) :
    RRes SemanticError (IrBuilder × Operand) := do
  let (b1, val) ← visit_expr b sub_expr
  match op with
  | .Neg => do
      let ity ← RRes.unwrapOpt (irTyFromAstTy ty)
      let (ctx', sub_inst_id) ← b1.ctx.build_inst_end_of_cur
        (.Binary .Sub (.Const (.Int 0)) val) ity
      pure ({ b1 with ctx := ctx' }, Operand.Inst sub_inst_id)
  | .Pos => pure (b1, val)
  | .Not => do
      let (b2, val) ← match sub_expr.ty with
        | .Bool => do
            let (ctx', id) ← b1.ctx.build_inst_end_of_cur
              (.ZExt val IrTy.int) IrTy.int
            pure ({ b1 with ctx := ctx' }, Operand.Inst id)
        | _ => pure (b1, val)
      let (ctx', not_inst_id) ← b2.ctx.build_inst_end_of_cur
        (.Binary .Ne val (.Const (.Int 0))) IrTy.bool
      pure ({ b2 with ctx := ctx' }, Operand.Inst not_inst_id)
termination_by (sizeOf (Expr.Unary op sub_expr span ty), 0)

/-- ir_builder.rs `visit_binary_expr` (IR side): lower both operands and
emit one binary instruction typed by the node's checked type. -/
def visit_binary_expr (b : IrBuilder) (op : BinaryOp) (lhs rhs : Expr)
    (span : Span) (ty : AstTy) :
    RRes SemanticError (IrBuilder × Operand) := do
  let (b1, left) ← visit_expr b lhs
  let (b2, right) ← visit_expr b1 rhs
  let ity ← RRes.unwrapOpt (irTyFromAstTy ty)
  let (ctx', id) ← b2.ctx.build_inst_end_of_cur
    (.Binary op.to_binary_inst_kind left right) ity
  pure ({ b2 with ctx := ctx' }, Operand.Inst id)
termination_by (sizeOf (Expr.Binary op lhs rhs span ty), 0)

/-- ir_builder.rs `visit_call_expr` (lines 566-599): resolve the callee
(panicking if the binding is not a function), lower each argument with
array-to-pointer decay (`GEP [0,0]`) at the call boundary, and emit the
call typed by the callee's return type. -/
def visit_call_expr (b : IrBuilder) (func : String) (args : List Expr)
    (span : Span) (ty : AstTy) :
    RRes SemanticError (IrBuilder × Operand) := do
  let idinfo ← RRes.unwrapOpt (b.ctx.scope_builder.find_name_rec func)
  let func_id ← RRes.unwrapOpt idinfo.as_func
  let (b1, args') ← visit_call_args b args
  let func_ty ← b1.ctx.get_func_ty func_id
  let ret_ty := func_ty.ret_ty
  let (ctx', call_inst_id) ← b1.ctx.build_inst_end_of_cur
    (.Call func_id args') ret_ty
  pure ({ b1 with ctx := ctx' }, Operand.Inst call_inst_id)
termination_by (sizeOf (Expr.Call func args span ty), 0)

/-- The argument loop of `visit_call_expr`: array-typed arguments decay
to a pointer to their first element through a `GEP [0, 0]`. -/
def visit_call_args (b : IrBuilder) :
    (args : List Expr) → RRes SemanticError (IrBuilder × List Operand)
  | [] => .ok (b, [])
  | x :: rest => do
      let (b1, expr_id) ← visit_expr b x
      let (b2, arg) ← match x.ty with
        | .Int => pure (b1, expr_id)
        | .Bool => pure (b1, expr_id)
        | .Ptr _ => pure (b1, expr_id)
        | .Array _ elem_ty => do
            let ety ← RRes.unwrapOpt (irTyFromAstTy elem_ty)
            let (ctx', gep_id) ← b1.ctx.build_inst_end_of_cur
              (.GEP expr_id [.Const (.Int 0), .Const (.Int 0)]) (IrTy.ptr_of ety)
            pure ({ b1 with ctx := ctx' }, Operand.Inst gep_id)
        | _ => (.panicked : RRes SemanticError (IrBuilder × Operand))
      let (b3, rest') ← visit_call_args b2 rest
      pure (b3, arg :: rest')
termination_by args => (sizeOf args, 1)

end

end IrBuilder

namespace IrBuilder

/-! ## IR Builder — declarations and statements -/

mutual

/-- ir_builder.rs `build_decl_init_val` (lines 67-98): scalar leaves are
stored through the base address; nested lists compute each element's
address with a `GEP [0, idx]` and recurse. -/
def build_decl_init_val (b : IrBuilder) (init_val : InitVal) (base_addr : Nat) :
    RRes SemanticError IrBuilder :=
  match init_val with
  | .mk _ty (.Expr expr) _sp => do
      let (b1, init_expr_id) ← visit_expr b expr
      let (ctx', _) ← b1.ctx.build_inst_end_of_cur
        (.Store (.Inst base_addr) init_expr_id) .Void
      pure { b1 with ctx := ctx' }
  | .mk ty (.ArrayVal array_vals) _sp =>
      build_decl_init_val_elems b ty array_vals 0 base_addr
  | .mk _ (.Const _) _ => .panicked
termination_by (sizeOf init_val, 1)

/-- The `enumerate` loop of `build_decl_init_val`; `ty` is the enclosing
`ArrayVal` node's checked type, converted and destructured afresh on each
iteration as in the source. -/
def build_decl_init_val_elems (b : IrBuilder) (ty : AstTy) :
    (vals : List InitVal) → Nat → Nat → RRes SemanticError IrBuilder
  | [], _, _ => .ok b
  | val :: rest, idx, base_addr => do
      let ir_ty ← RRes.unwrapOpt (irTyFromAstTy ty)
      let elem ← (match ir_ty with
        | .Array _ e => .ok e
        | _ => (.panicked : RRes SemanticError IrTy))
      let (ctx', gep_inst_id) ← b.ctx.build_inst_end_of_cur
        (.GEP (.Inst base_addr) [.Const (.Int 0), .Const (.Int (Int.ofNat idx))])
        (IrTy.ptr_of elem)
      let b1 ← build_decl_init_val { b with ctx := ctx' } val gep_inst_id
      build_decl_init_val_elems b1 ty rest (idx + 1) base_addr
termination_by vals => (sizeOf vals, 0)

end

/-- ir_builder.rs `visit_const_init_val` (IR side): the Type Checker must
already have rewritten the initializer to a `Const` literal
(`as_const().unwrap()`), which converts to an IR constant. -/
def visit_const_init_val (init_val : InitVal) : RRes SemanticError Constant :=
  match init_val.kind with
  | .Const lit => RRes.unwrapOpt (constantFromLiteral lit)
  | _ => .panicked

/-- The `sub_decl` loop of ir_builder.rs `visit_global_decl`: one global
per name, pointer-typed, initialized with the folded constant or a
structural zero; the scope insert's result is discarded. -/
def visit_global_decl_subs (b : IrBuilder) :
    List SubDecl → RRes SemanticError IrBuilder
  | [] => .ok b
  | sd :: rest => do
      let ty ← RRes.unwrapOpt (irTyFromAstTy sd.ty)
      let ptr_ty := IrTy.ptr_of ty
      let const_init_val ← match sd.init_val with
        | some iv => visit_const_init_val iv
        | none => pure (Constant.build_zero ty)
      let (ctx1, global_id) := b.ctx.build_global ⟨ptr_ty, sd.ident, const_init_val⟩
      let sc ← ctx1.scope_builder.insertDiscard sd.ident (IdInfo.Global global_id)
      visit_global_decl_subs { b with ctx := { ctx1 with scope_builder := sc } } rest

/-- ir_builder.rs `visit_global_decl`. -/
def visit_global_decl (b : IrBuilder) (decl : Decl) :
    RRes SemanticError IrBuilder :=
  visit_global_decl_subs b decl.sub_decls

/-- The `sub_decl` loop of ir_builder.rs `visit_decl_stmt` (lines
281-297): `Alloca` storage, bind the name to the allocation (insert
result discarded), then lower the initializer against it. -/
def visit_decl_stmt_subs (b : IrBuilder) :
    List SubDecl → RRes SemanticError IrBuilder
  | [] => .ok b
  | sd :: rest => do
      let ty ← RRes.unwrapOpt (irTyFromAstTy sd.ty)
      let (ctx1, alloca_addr) ← b.ctx.build_inst_end_of_cur
        (.Alloca ty) (IrTy.ptr_of ty)
      let sc ← ctx1.scope_builder.insertDiscard sd.ident (IdInfo.Inst alloca_addr)
      let b1 : IrBuilder := { b with ctx := { ctx1 with scope_builder := sc } }
      let b2 ← match sd.init_val with
        | some iv => build_decl_init_val b1 iv alloca_addr
        | none => pure b1
      visit_decl_stmt_subs b2 rest

/-- ir_builder.rs `visit_decl_stmt`. -/
def visit_decl_stmt (b : IrBuilder) (decl : Decl) :
    RRes SemanticError IrBuilder :=
  visit_decl_stmt_subs b decl.sub_decls

/-- ir_builder.rs `visit_expr_stmt`. -/
def visit_expr_stmt (b : IrBuilder) (e : Expr) : RRes SemanticError IrBuilder := do
  let (b1, _) ← visit_expr b e
  pure b1

/-- ir_builder.rs `visit_break_stmt` (lines 402-415): resolve the
innermost break target — an empty loop-target stack is the
`BreakOutsideLoop` error — emit the jump, then move the cursor to a
fresh continuation block. -/
def visit_break_stmt (b : IrBuilder) (_span : Span) :
    RRes SemanticError IrBuilder :=
  match b.get_break_target with
  | none => .err .BreakOutsideLoop
  | some break_target => do
      let (ctx1, _) ← b.ctx.build_inst_end_of_cur (.Br (.Jump break_target)) .Void
      let (ctx2, nxt_bb) ← ctx1.build_bb_after_cur
      pure { b with ctx := ctx2.set_cur_bb nxt_bb }

/-- ir_builder.rs `visit_continue_stmt` (lines 417-430): symmetric to
`visit_break_stmt` with the continue target. -/
def visit_continue_stmt (b : IrBuilder) (_span : Span) :
    RRes SemanticError IrBuilder :=
  match b.get_continue_target with
  | none => .err .ContinueOutsideLoop
  | some continue_target => do
      let (ctx1, _) ← b.ctx.build_inst_end_of_cur (.Br (.Jump continue_target)) .Void
      let (ctx2, nxt_bb) ← ctx1.build_bb_after_cur
      pure { b with ctx := ctx2.set_cur_bb nxt_bb }

/-- ir_builder.rs `visit_return_stmt`: lower the operand, emit the
return, open a fresh continuation block. -/
def visit_return_stmt (b : IrBuilder) (val : Option Expr) (_span : Span) :
    RRes SemanticError IrBuilder := do
  let (b1, v) ← match val with
    | some e => do
        let (b1, v) ← visit_expr b e
        pure (b1, some v)
    | none => pure (b, (none : Option Operand))
  let (ctx1, _) ← b1.ctx.build_inst_end_of_cur (.RetInst v) .Void
  let (ctx2, nxt_bb) ← ctx1.build_bb_after_cur
  pure { b1 with ctx := ctx2.set_cur_bb nxt_bb }

/-- ir_builder.rs `visit_empty_stmt`. -/
def visit_empty_stmt (b : IrBuilder) (_span : Span) :
    RRes SemanticError IrBuilder := .ok b

mutual

/-- ir_builder.rs `visit_stmt` (dispatch). -/
def visit_stmt (b : IrBuilder) (s : Stmt) : RRes SemanticError IrBuilder :=
  match s with
  | .Expr x => visit_expr_stmt b x
  | .Block x => visit_block_stmt b x
  | .If c t e sp => visit_if_stmt b c t e sp
  | .While c bo sp => visit_while_stmt b c bo sp
  | .Break sp => visit_break_stmt b sp
  | .Continue sp => visit_continue_stmt b sp
  | .Return v sp => visit_return_stmt b v sp
  | .Empty sp => visit_empty_stmt b sp
termination_by (sizeOf s, 1)

/-- ir_builder.rs `visit_if_stmt` (lines 304-355): evaluate the condition
in the current block, lower each branch into its own block, create the
"next" block, then back-patch the conditional branch (else target
defaulting to "next") and the branch-end jumps.  The cursor ends at
"next". -/
def visit_if_stmt (b : IrBuilder) (cond : Expr) (then_block : Stmt)
    (else_block : Option Stmt) (span : Span) : RRes SemanticError IrBuilder := do
  let (b1, cond_op) ← visit_expr b cond
  let old_bb := b1.ctx.cur_bb
  let (ctx2, then_bb) ← b1.ctx.build_bb_after_cur
  let b2 ← visit_stmt { b1 with ctx := ctx2.set_cur_bb then_bb } then_block
  let then_bb_end := b2.ctx.cur_bb
  let (b3, else_bb?, else_bb_end?) ← match else_block with
    | some else_blk => do
        let (ctx3, else_bb) ← b2.ctx.build_bb_after_cur
        let b3 ← visit_stmt { b2 with ctx := ctx3.set_cur_bb else_bb } else_blk
        pure (b3, some else_bb, some b3.ctx.cur_bb)
    | none => pure (b2, (none : Option Nat), (none : Option Nat))
  let (ctx4, nxt_bb) ← b3.ctx.build_bb_after_cur
  let (ctx5, _) ← ctx4.build_inst_end
    (.Br (.Br cond_op then_bb (else_bb?.getD nxt_bb))) .Void old_bb
  let (ctx6, _) ← ctx5.build_inst_end (.Br (.Jump nxt_bb)) .Void then_bb_end
  let ctx7 ← match else_bb_end? with
    | some else_bb_end => do
        let (c, _) ← ctx6.build_inst_end (.Br (.Jump nxt_bb)) .Void else_bb_end
        pure c
    | none => pure ctx6
  pure { b3 with ctx := ctx7.set_cur_bb nxt_bb }
termination_by (sizeOf (Stmt.If cond then_block else_block span), 0)

/-- ir_builder.rs `visit_while_stmt` (lines 357-400): build the condition
block, the loop body block and the next block; push `(next, cond)` as the
loop target around the body; wire the back edges; cursor ends at "next". -/
def visit_while_stmt (b : IrBuilder) (cond : Expr) (body : Stmt)
    (span : Span) : RRes SemanticError IrBuilder := do
  let old_bb := b.ctx.cur_bb
  let (ctx1, cond_bb) ← b.ctx.build_bb_after_cur
  let (b1, cond_op) ← visit_expr { b with ctx := ctx1.set_cur_bb cond_bb } cond
  let (ctx2, loop_bb) ← b1.ctx.build_bb_after_cur
  let (ctx3, nxt_bb) ← ctx2.build_bb_after_cur
  let b2 := ({ b1 with ctx := ctx3.set_cur_bb loop_bb }).push_break_target nxt_bb cond_bb
  let b3 ← visit_stmt b2 body
  let b4 := b3.pop_loop_target
  let loop_end_bb := b4.ctx.cur_bb
  let (ctx5, _) ← b4.ctx.build_inst_end (.Br (.Jump cond_bb)) .Void old_bb
  let (ctx6, _) ← ctx5.build_inst_end (.Br (.Br cond_op loop_bb nxt_bb)) .Void cond_bb
  let (ctx7, _) ← ctx6.build_inst_end (.Br (.Jump cond_bb)) .Void loop_end_bb
  pure { b4 with ctx := ctx7.set_cur_bb nxt_bb }
termination_by (sizeOf (Stmt.While cond body span), 0)

/-- ir_builder.rs `visit_block_stmt`: push and pop the location scope
around the items. -/
def visit_block_stmt (b : IrBuilder) (blk : BlockStmt) :
    RRes SemanticError IrBuilder :=
  match blk with
  | .mk items _sp => do
      let b1 : IrBuilder :=
        { b with ctx := { b.ctx with scope_builder := b.ctx.scope_builder.push_scope } }
      let b2 ← visit_block_items b1 items
      pure { b2 with ctx := { b2.ctx with scope_builder := b2.ctx.scope_builder.pop_scope } }
termination_by (sizeOf blk, 0)

/-- The item loop of `visit_block_stmt`. -/
def visit_block_items (b : IrBuilder) :
    (items : List BlockItem) → RRes SemanticError IrBuilder
  | [] => .ok b
  | .Stmt x :: rest => do
      let b1 ← visit_stmt b x
      visit_block_items b1 rest
  | .Decl d :: rest => do
      let b1 ← visit_decl_stmt b d
      visit_block_items b1 rest
termination_by items => (sizeOf items, 0)

end

/-- ir_builder.rs `visit_func_param` (lines 227-250): pointer-typed
(array-decayed) parameters are bound directly to the parameter value — no
`Alloca`; every other parameter is stack-allocated and the incoming value
stored into the allocation. -/
def visit_func_param (b : IrBuilder) (param : FuncParam) :
    RRes SemanticError IrBuilder := do
  let ty ← RRes.unwrapOpt (irTyFromAstTy param.ty)
  let (ctx1, param_id) ← b.ctx.build_func_param ty
  match ty with
  | .Ptr _ => do
      let sc ← ctx1.scope_builder.insertDiscard param.ident (IdInfo.Param param_id)
      pure { b with ctx := { ctx1 with scope_builder := sc } }
  | _ => do
      let (ctx2, alloca_addr) ← ctx1.build_inst_end_of_cur
        (.Alloca ty) (IrTy.ptr_of ty)
      let sc ← ctx2.scope_builder.insertDiscard param.ident (IdInfo.Inst alloca_addr)
      let ctx3 := { ctx2 with scope_builder := sc }
      let (ctx4, _) ← ctx3.build_inst_end_of_cur
        (.Store (.Inst alloca_addr) (.Param param_id)) .Void
      pure { b with ctx := ctx4 }

/-- The parameter loop of ir_builder.rs `visit_func`. -/
def visit_func_params (b : IrBuilder) :
    List FuncParam → RRes SemanticError IrBuilder
  | [] => .ok b
  | p :: rest => do
      let b1 ← visit_func_param b p
      visit_func_params b1 rest

/-- ir_builder.rs `visit_ty` (IR side). -/
def visit_ty (ty_def : TypeIdent) : RRes SemanticError IrTy :=
  match ty_def.kind with
  | .Primitive .Integer => .ok (.Int 32)
  | .Void => .ok .Void

/-- The prefix of ir_builder.rs `visit_func` up to and including the body
(lines 193-212): build the function skeleton, register its name (insert
result discarded), set the cursor, open the entry block, bind parameters,
lower the body. -/
def visit_func_setup_and_body (b : IrBuilder) (ast_func : AstFunc)
    (ret_ty : IrTy) : RRes SemanticError IrBuilder := do
  let func := IrFunc.new ast_func.ident ret_ty false
  let (ctx1, func_id) := b.ctx.build_func func
  let sc ← ctx1.scope_builder.insertDiscard ast_func.ident (IdInfo.Func func_id)
  let ctx2 := (Context.set_cur_func { ctx1 with scope_builder := sc } func_id)
  let ctx3 := { ctx2 with scope_builder := ctx2.scope_builder.push_scope }
  let (ctx4, init_bb_id) ← ctx3.build_bb
  let ctx5 := ctx4.set_cur_bb init_bb_id
  let b1 ← visit_func_params { b with ctx := ctx5 } ast_func.params
  visit_block_stmt b1 ast_func.body

/-- The `match &ret_ty` of ir_builder.rs `visit_func` (lines 215-219):
the implicit return's value — nothing for `Void`, the constant `0` for
`Int`, `unreachable!()` otherwise. -/
def implicit_ret_inst : IrTy → RRes SemanticError (Option Operand)
  | .Void => .ok none
  | .Int _ => .ok (some (Operand.Const (.Int 0)))
  | _ => .panicked

/-- ir_builder.rs `visit_func` (lines 190-225): after the body, append
the implicit return — no value for `Void`, the constant `0` for `Int` —
at the block the cursor then points to, then pop the scope. -/
def visit_func (b : IrBuilder) (ast_func : AstFunc) :
    RRes SemanticError IrBuilder := do
  let ret_ty ← visit_ty ast_func.ret_ty_ident
  let b1 ← visit_func_setup_and_body b ast_func ret_ty
  let ret_inst ← implicit_ret_inst ret_ty
  let (ctx', _) ← b1.ctx.build_inst_end_of_cur (.RetInst ret_inst) .Void
  pure { b1 with ctx := { ctx' with scope_builder := ctx'.scope_builder.pop_scope } }

/-- One step of ir_builder.rs `push_built_in_funcs`: build the function,
register it in the module, bind its name. -/
def push_one_built_in (b : IrBuilder) (name : String) (func : IrFunc) :
    RRes SemanticError IrBuilder := do
  let (ctx1, func_id) := b.ctx.build_func func
  let sc ← ctx1.scope_builder.insertDiscard name (IdInfo.Func func_id)
  pure { b with ctx := { ctx1 with scope_builder := sc } }

/-- ir_builder.rs `push_built_in_funcs` (lines 100-135): the six fixed
runtime declarations, each flagged as builtin. -/
def push_built_in_funcs (b : IrBuilder) : RRes SemanticError IrBuilder := do
  let b ← push_one_built_in b "getint" (IrFunc.new "getint" (.Int 32) true)
  let b ← push_one_built_in b "getch" (IrFunc.new "getch" (.Int 32) true)
  let b ← push_one_built_in b "getarray"
    (((IrFunc.new "getarray" (.Int 32) true).build_func_param (.Ptr (.Int 32))).1)
  let b ← push_one_built_in b "putint"
    (((IrFunc.new "putint" .Void true).build_func_param (.Int 32)).1)
  let b ← push_one_built_in b "putch"
    (((IrFunc.new "putch" .Void true).build_func_param (.Int 32)).1)
  let b ← push_one_built_in b "putarray"
    (((((IrFunc.new "putarray" (.Int 32) true).build_func_param (.Int 32)).1).build_func_param
        (.Ptr (.Int 32))).1)
  pure b

/-- The item loop of ir_builder.rs `visit_program`. -/
def visit_program_items (b : IrBuilder) :
    List ProgramItem → RRes SemanticError IrBuilder
  | [] => .ok b
  | .Decl d :: rest => do
      let b1 ← visit_global_decl b d
      visit_program_items b1 rest
  | .Func f :: rest => do
      let b1 ← visit_func b f
      visit_program_items b1 rest

/-- ir_builder.rs `visit_program`. -/
def visit_program (b : IrBuilder) (program : Program) :
    RRes SemanticError IrBuilder := do
  let b1 : IrBuilder :=
    { b with ctx := { b.ctx with scope_builder := b.ctx.scope_builder.push_scope } }
  let b2 ← push_built_in_funcs b1
  let b3 ← visit_program_items b2 program.program_items
  pure { b3 with ctx := { b3.ctx with scope_builder := b3.ctx.scope_builder.pop_scope } }

end IrBuilder

/-! ## Observers and concrete fixtures

Small observers used by the theorem statements, and the concrete inputs
of the witness / example scenarios.  Nothing below alters the embedding. -/

/-- The instruction list of the cursor's function. -/
def curFuncInsts (b : IrBuilder) : Option (List InstRec) :=
  (b.ctx.cur_module.get_func b.ctx.cur_func).map IrFunc.insts

/-- The last instruction of one basic block of a function (instructions
of one block appear in `insts` in their appended order). -/
def lastInstOfBlock (f : IrFunc) (bb : Nat) : Option InstRec :=
  (f.insts.filter (fun i => i.bb = bb)).getLast?

/-- Number of elements actually present in an array literal's list. -/
def literalValsLength : LiteralExpr → Nat
  | .mk (.Integer _) _ _ => 0
  | .mk (.Array _ vals) _ _ => vals.length

/-- A one-name, no-initializer `int n;` declaration statement. -/
def simpleIntDecl (n : String) : Decl :=
  ⟨false, ⟨.Primitive .Integer, ⟨0, 0⟩⟩, [⟨n, none, none, ⟨0, 0⟩, .Unknown⟩], ⟨0, 0⟩⟩

/-- The Type Checker's global scope right after the builtins are pushed. -/
def tcGlobalScopes : ScopeBuilder TyInfo :=
  match push_built_in_funcs (ScopeBuilder.push_scope ⟨[]⟩) with
  | .ok sc => sc
  | _ => ⟨[]⟩

def c2Arg5 : Expr := .Literal (.mk (.Integer 5) ⟨0, 0⟩ .Unknown)

def c2Arg5Int : Expr := .Literal (.mk (.Integer 5) ⟨0, 0⟩ .Int)

/-- An integer literal already typed `Int`, as the checker leaves it. -/
def c4Lit (v : Int) : LiteralExpr := .mk (.Integer v) ⟨0, 0⟩ .Int

/-- The initializer `{1, 2}` (fresh from the parser, types `Unknown`). -/
def c4InitA : InitVal := .mk .Unknown (.ArrayVal
  [ .mk .Unknown (.Expr (.Literal (.mk (.Integer 1) ⟨0, 0⟩ .Unknown))) ⟨0, 0⟩,
    .mk .Unknown (.Expr (.Literal (.mk (.Integer 2) ⟨0, 0⟩ .Unknown))) ⟨0, 0⟩ ]) ⟨0, 0⟩

/-- The declaration `const int a[3] = {1, 2};`. -/
def c4DeclA : Decl := ⟨true, ⟨.Primitive .Integer, ⟨0, 0⟩⟩,
  [⟨"a", some [.Literal (.mk (.Integer 3) ⟨0, 0⟩ .Unknown)], some c4InitA, ⟨0, 0⟩, .Unknown⟩],
  ⟨0, 0⟩⟩

/-- The constant the checker stores for `a`: recorded size 3, but only
the two written elements — no zero literal is appended. -/
def c4ConstVal : LiteralExpr :=
  .mk (.Array 3 [c4Lit 1, c4Lit 2]) ⟨0, 0⟩ (.Array 3 .Int)

def c4ScopesAfter : ScopeBuilder TyInfo :=
  ⟨[⟨[("a", ⟨.Array 3 .Int, some c4ConstVal, true⟩)]⟩]⟩

def c4DeclAChecked : Decl := ⟨true, ⟨.Primitive .Integer, ⟨0, 0⟩⟩,
  [⟨"a", some [.Literal (.mk (.Integer 3) ⟨0, 0⟩ .Int)],
    some (.mk .Unknown (.Const c4ConstVal) ⟨0, 0⟩), ⟨0, 0⟩, .Array 3 .Int⟩],
  ⟨0, 0⟩⟩

def c6Lit1 : Expr := .Literal (.mk (.Integer 1) ⟨0, 1⟩ .Unknown)

def c6Lit0 : Expr := .Literal (.mk (.Integer 0) ⟨2, 3⟩ .Unknown)

/-- The expression `3 + 4 * 2` with source-positioned spans. -/
def c6Expr342 : Expr := .Binary .Add (.Literal (.mk (.Integer 3) ⟨0, 1⟩ .Unknown))
  (.Binary .Mul (.Literal (.mk (.Integer 4) ⟨4, 5⟩ .Unknown))
    (.Literal (.mk (.Integer 2) ⟨8, 9⟩ .Unknown)) ⟨4, 9⟩ .Unknown) ⟨0, 9⟩ .Unknown

/-- A fresh IR builder whose (location) scope stack has its global scope
pushed, as `visit_program` arranges before visiting items. -/
def irB0 : IrBuilder := ⟨{ Context.new with scope_builder := ScopeBuilder.push_scope ⟨[]⟩ }, []⟩

/-- The function `int main() { }`. -/
def c8FMain : AstFunc := ⟨"main", [], ⟨.Primitive .Integer, ⟨0, 0⟩⟩, .mk [] ⟨0, 0⟩, ⟨0, 0⟩⟩

/-- The builder state after `visit_func_setup_and_body` on `c8FMain`:
one function `main`, entry block `0` open and empty, cursor on it. -/
def c8B1 : IrBuilder :=
  ⟨⟨⟨[⟨[]⟩, ⟨[("main", IdInfo.Func 0)]⟩]⟩,
    ⟨[⟨"main", .Int 32, false, [], 0, [0], 1, [], 0⟩], []⟩, 0, 0⟩, []⟩

/-- The function `void g() { break; }`. -/
def c5FBreak : AstFunc := ⟨"g", [], ⟨.Void, ⟨0, 0⟩⟩, .mk [.Stmt (.Break ⟨0, 0⟩)] ⟨0, 0⟩, ⟨0, 0⟩⟩

/-- The function `void h() { while (cond) break; }` (condition a literal,
checked `Bool`). -/
def c5FWhile : AstFunc := ⟨"h", [], ⟨.Void, ⟨0, 0⟩⟩,
  .mk [.Stmt (.While (.Literal (.mk (.Integer 1) ⟨0, 0⟩ .Bool)) (.Break ⟨0, 0⟩) ⟨0, 0⟩)] ⟨0, 0⟩,
  ⟨0, 0⟩⟩

/-- The lowering of `c5FWhile`: block 1 is the condition block, block 2
the loop body, block 3 the loop's "next" block; the `break` in the body
(block 2) jumps straight to block 3, the innermost `(next, cond)` loop
target pushed by the `while` lowering. -/
def c5WhileBuilt : IrBuilder :=
  ⟨⟨⟨[⟨[("h", IdInfo.Func 0)]⟩]⟩,
    ⟨[⟨"h", .Void, false, [], 0, [0, 1, 3, 2, 4], 5,
      [⟨0, 2, .Br (.Jump 3), .Void⟩,
       ⟨1, 0, .Br (.Jump 1), .Void⟩,
       ⟨2, 1, .Br (.Br (.Const (.Int 1)) 2 3), .Void⟩,
       ⟨3, 4, .Br (.Jump 1), .Void⟩,
       ⟨4, 3, .RetInst none, .Void⟩], 5⟩], []⟩, 0, 3⟩, []⟩

/-- A one-function builder state: function 0 (`f`) exists with one
pointer parameter, entry block 0 open, cursor on it, and the (location)
scope binding `a` to that parameter. -/
def c7BParam : IrBuilder :=
  ⟨⟨⟨[⟨[("a", IdInfo.Param 0)]⟩]⟩,
    ⟨[⟨"f", .Int 32, false, [(0, .Ptr (.Int 32))], 1, [0], 1, [], 0⟩], []⟩, 0, 0⟩, []⟩

/-- The same state with `a` bound to an `Alloca` result instead. -/
def c7BInst : IrBuilder :=
  ⟨⟨⟨[⟨[("a", IdInfo.Inst 7)]⟩]⟩,
    ⟨[⟨"f", .Int 32, false, [(0, .Ptr (.Int 32))], 1, [0], 1, [], 0⟩], []⟩, 0, 0⟩, []⟩

/-- The l-value read `a[0]` as the checker leaves it (type `Int`). -/
def c7ReadA0 : Expr := .LVal "a" (some [.Literal (.mk (.Integer 0) ⟨0, 0⟩ .Int)]) ⟨0, 0⟩ .Int false

/-- The unchecked parameter `int a[]`. -/
def c7ParamRaw : FuncParam := ⟨"a", some [], ⟨.Primitive .Integer, ⟨0, 0⟩⟩, .Unknown, ⟨0, 0⟩⟩

/-- The parameter after checking: type `Ptr Int`. -/
def c7ParamChecked : FuncParam := ⟨"a", some [], ⟨.Primitive .Integer, ⟨0, 0⟩⟩, .Ptr .Int, ⟨0, 0⟩⟩

/-- The innermost scope of the C1 counterexample: `x` is already bound. -/
def c1ScopeX : Scope TyInfo := ⟨[("x", ⟨.Int, none, false⟩)]⟩

/-- `int x;` after checking (its declared type written back). -/
def c1DeclChecked : Decl :=
  ⟨false, ⟨.Primitive .Integer, ⟨0, 0⟩⟩, [⟨"x", none, none, ⟨0, 0⟩, .Int⟩], ⟨0, 0⟩⟩

/-- The folded literal `{1, 2}` as `visit_const_init_val` produces it
(recorded size = element count, type still `Unknown`). -/
def c4RawLit : LiteralExpr :=
  .mk (.Array 2 [.mk (.Integer 1) ⟨0, 0⟩ .Int, .mk (.Integer 2) ⟨0, 0⟩ .Int]) ⟨0, 0⟩ .Unknown

/-- The initializer node after `visit_const_init_val`. -/
def c4InitAVisited : InitVal := .mk .Unknown (.ArrayVal
  [ .mk .Int (.Expr (.Literal (.mk (.Integer 1) ⟨0, 0⟩ .Int))) ⟨0, 0⟩,
    .mk .Int (.Expr (.Literal (.mk (.Integer 2) ⟨0, 0⟩ .Int))) ⟨0, 0⟩ ]) ⟨0, 0⟩

/-- The TC-side operand `!0` (fresh from the parser). -/
def c9Not0 : Expr := .Literal (.mk (.Integer 0) ⟨1, 2⟩ .Unknown)

/-- The TC-side operand `!1`. -/
def c9Not1 : Expr := .Literal (.mk (.Integer 1) ⟨1, 2⟩ .Unknown)

/-- An IR-side integer operand for `!e` (checked type `Int`). -/
def c9SubInt : Expr := .Literal (.mk (.Integer 7) ⟨0, 0⟩ .Int)

/-- An IR-side boolean operand for `!e`: the checked comparison `1 < 2`. -/
def c9SubBool : Expr := .Binary .Lt (.Literal (.mk (.Integer 1) ⟨0, 0⟩ .Int))
  (.Literal (.mk (.Integer 2) ⟨0, 0⟩ .Int)) ⟨0, 0⟩ .Bool

/-- A one-function builder inside a loop: function 0 has blocks 0-3, the
cursor is in the loop body (block 2), and the loop-target stack holds
`(break to 3, continue to 1)`. -/
def c5LoopFn : IrFunc := ⟨"h", .Void, false, [], 0, [0, 1, 2, 3], 4, [], 0⟩

def c5BLoop : IrBuilder :=
  ⟨⟨⟨[⟨[]⟩]⟩, ⟨[c5LoopFn], []⟩, 0, 2⟩, [⟨3, 1⟩]⟩

/-- A one-function builder whose location scope is open and empty:
function 0 (`f`) has no parameters yet, entry block 0, cursor on it. -/
def c7BFresh : IrBuilder :=
  ⟨⟨⟨[⟨[]⟩]⟩, ⟨[⟨"f", .Int 32, false, [], 0, [0], 1, [], 0⟩], []⟩, 0, 0⟩, []⟩

/-- Function `main` as `visit_func_setup_and_body` leaves it in `c8B1`. -/
def c8MainFn : IrFunc := ⟨"main", .Int 32, false, [], 0, [0], 1, [], 0⟩

/-- `c7BFresh`'s function after lowering the comparison `1 < 2`. -/
def c9FnAfterLt : IrFunc :=
  ⟨"f", .Int 32, false, [], 0, [0], 1,
    [⟨0, 0, .Binary .Lt (.Const (.Int 1)) (.Const (.Int 2)), .Int 1⟩], 1⟩

/-- `c7BFresh` after lowering `1 < 2` (operand: instruction 0). -/
def c9BAfterLt : IrBuilder := ⟨⟨⟨[⟨[]⟩]⟩, ⟨[c9FnAfterLt], []⟩, 0, 0⟩, []⟩

/-! ## Evaluation lemmas

The visitors compile through well-founded recursion, so concrete runs are
evaluated by `simp` with the definitions' equation lemmas; everything the
evaluation can touch is registered here. -/

attribute [simp] visit_expr visit_lexpr visit_lval_inner visit_lexpr_subs visit_assign_expr
  visit_unary_expr visit_binary_expr visit_call_expr visit_call_args visit_literal_expr
  foldReplace expectTyInt expectTyBool expectTyIntOrBool BinaryOp.isArithOrCmp binLegal
  binExpectedStr binResultTy evalBinOp zipAssertTypes assert_type_eq astTyEq astTyEqList
  AstTy.as_func astTyIsArray LiteralExpr.get_int LiteralExpr.kind LiteralExpr.span LiteralExpr.ty
  Expr.ty Expr.span Expr.as_literal visit_ty build_ast_ty build_ast_ty_subs buildArrayTyRev
  fix_array_literal fix_array_literal_list fix_array_init_val fix_array_init_val_list
  visit_const_init_val visit_const_init_val_list visit_init_val visit_init_val_list
  visit_global_decl visit_global_decl_subs visit_decl_stmt visit_decl_stmt_subs
  visit_func_param visit_func_params insert_params visit_func visit_expr_stmt
  visit_return_stmt visit_break_stmt visit_continue_stmt visit_empty_stmt visit_stmt
  visit_if_stmt visit_while_stmt visit_block_stmt visit_block_items push_built_in_funcs
  visit_program_items visit_program
  Scope.new Scope.find Scope.insert ScopeBuilder.new ScopeBuilder.push_scope ScopeBuilder.pop_scope
  ScopeBuilder.findRec ScopeBuilder.find_name_rec ScopeBuilder.insert ScopeBuilder.insertDiscard
  ScopeBuilder.insertOrDup RRes.unwrapOpt rmapM
  wrap32 add32 sub32 mul32 neg32 div32 mod32 i32Min i32OfBool
  irTyFromAstTy irTyFromAstTyList constantFromLiteral constantFromLiteralList
  Constant.build_zero operandFromIdInfo IdInfo.as_func isParamOperand
  IrTy.ptr_of IrTy.int IrTy.bool BinaryOp.to_binary_inst_kind insertAfter
  FuncTy.ret_ty IrFunc.new IrFunc.build_func_param IrFunc.build_bb IrFunc.build_bb_after_cur
  IrFunc.build_inst_at_end IrFunc.get_func_ty
  IrModule.new IrModule.build_func IrModule.build_global IrModule.get_func IrModule.set_func
  Context.new Context.modify_cur_func Context.build_inst_end Context.build_inst_end_of_cur
  Context.build_bb_after_cur Context.build_bb Context.build_func Context.build_global
  Context.build_func_param Context.get_func_ty Context.set_cur_bb Context.set_cur_func
  IrBuilder.new IrBuilder.push_break_target IrBuilder.pop_loop_target
  IrBuilder.get_break_target IrBuilder.get_continue_target
  IrBuilder.visit_literal_expr IrBuilder.visit_expr IrBuilder.visit_lexpr
  IrBuilder.visit_lval_inner IrBuilder.visit_expr_list IrBuilder.visit_assign_expr
  IrBuilder.visit_unary_expr IrBuilder.visit_binary_expr IrBuilder.visit_call_expr
  IrBuilder.visit_call_args IrBuilder.build_decl_init_val IrBuilder.build_decl_init_val_elems
  IrBuilder.visit_const_init_val IrBuilder.visit_global_decl_subs IrBuilder.visit_global_decl
  IrBuilder.visit_decl_stmt_subs IrBuilder.visit_decl_stmt IrBuilder.visit_expr_stmt
  IrBuilder.visit_break_stmt IrBuilder.visit_continue_stmt IrBuilder.visit_return_stmt
  IrBuilder.visit_empty_stmt IrBuilder.visit_stmt IrBuilder.visit_if_stmt
  IrBuilder.visit_while_stmt IrBuilder.visit_block_stmt IrBuilder.visit_block_items
  IrBuilder.visit_func_param IrBuilder.visit_func_params IrBuilder.visit_ty
  IrBuilder.visit_func_setup_and_body IrBuilder.implicit_ret_inst IrBuilder.visit_func
  IrBuilder.push_one_built_in IrBuilder.push_built_in_funcs IrBuilder.visit_program_items
  IrBuilder.visit_program
  curFuncInsts lastInstOfBlock literalValsLength BlockStmt.block_items
  InitVal.ty InitVal.kind InitVal.span

/-! ## Theorems -/

set_option maxRecDepth 1000000

/-- Fixing the elements of an array literal never changes how many
elements the list holds. -/
theorem fix_array_literal_list_length (elem_ty : AstTy) :
    ∀ (vals vals' : List LiteralExpr),
      fix_array_literal_list vals elem_ty = .ok vals' →
      vals'.length = vals.length := by
  intro vals
  induction vals with
  | nil => intro vals' h; simp only [fix_array_literal_list] at h; cases h; rfl
  | cons v rest ih =>
    intro vals' h
    simp only [fix_array_literal_list] at h
    cases hv : fix_array_literal v elem_ty with
    | ok v' =>
      rw [hv] at h
      cases hr : fix_array_literal_list rest elem_ty with
      | ok rest' =>
        rw [hr] at h
        simp only [RRes.bind_eq_bind, RRes.bind_ok, RRes.pure_eq_ok] at h
        cases h
        simp [ih rest' hr]
      | err e => rw [hr] at h; simp at h
      | panicked => rw [hr] at h; simp at h
    | err e => rw [hv] at h; simp at h
    | panicked => rw [hv] at h; simp at h

/-- Fixing the elements of an array initializer list never changes its
length. -/
theorem fix_array_init_val_list_length (elem_ty : AstTy) :
    ∀ (vals vals' : List InitVal),
      fix_array_init_val_list vals elem_ty = .ok vals' →
      vals'.length = vals.length := by
  intro vals
  induction vals with
  | nil => intro vals' h; simp only [fix_array_init_val_list] at h; cases h; rfl
  | cons v rest ih =>
    intro vals' h
    simp only [fix_array_init_val_list] at h
    cases hv : fix_array_init_val v elem_ty with
    | ok v' =>
      rw [hv] at h
      cases hr : fix_array_init_val_list rest elem_ty with
      | ok rest' =>
        rw [hr] at h
        simp only [RRes.bind_eq_bind, RRes.bind_ok, RRes.pure_eq_ok] at h
        cases h
        simp [ih rest' hr]
      | err e => rw [hr] at h; simp at h
      | panicked => rw [hr] at h; simp at h
    | err e => rw [hv] at h; simp at h
    | panicked => rw [hv] at h; simp at h

/-- C3: equality on `AstTy` is *not* reflexive on `Bool` — the
hand-written `PartialEq` omits `(Bool, Bool)` from its true arms, so
`Bool == Bool` evaluates to `false` even though the type derives `Eq`
(whose contract promises reflexivity); the `Ptr`/`Array` cross-equality
on element types alone does hold. -/
theorem spec_c3_bool_eq_bool_false :
    astTyEq AstTy.Bool AstTy.Bool = false ∧
    astTyEq (AstTy.Ptr AstTy.Int) (AstTy.Array 5 AstTy.Int) = true ∧
    astTyEq (AstTy.Array 5 AstTy.Int) (AstTy.Ptr AstTy.Int) = true := by
  refine ⟨rfl, rfl, rfl⟩

/-- C1 (counterexample): with `x` already bound in the innermost scope,
the Type Checker's declaration visit of `int x;` does *not* fail with a
duplicate-name error — it succeeds, and the scope stack is returned
unchanged (the duplicate insert is silently discarded, keeping the
existing binding). -/
theorem spec_c1_counterexample :
    visit_decl_stmt ⟨[c1ScopeX]⟩ (simpleIntDecl "x")
      = .ok (⟨[c1ScopeX]⟩, c1DeclChecked) := by
  simp [simpleIntDecl, c1ScopeX, c1DeclChecked]

/-- C1 (amended): `Scope::insert` refuses a second insertion of a name in
the same innermost scope without mutating it, and function/parameter
registration turns that refusal into a duplicate-name error — but the
declaration visits (global and local) discard the insert's result, so a
duplicate *variable* declaration succeeds silently, keeping the existing
binding; shadowing a binding of an outer scope succeeds and resolves
innermost-first. -/
theorem spec_c1 (n : String) (v w : TyInfo) (s : Scope TyInfo)
    (rest : List (Scope TyInfo)) (hv : s.find n = some v) :
    (ScopeBuilder.insert ⟨s :: rest⟩ n w = .dup) ∧
    (ScopeBuilder.insertOrDup (⟨s :: rest⟩ : ScopeBuilder TyInfo) n w
      = .err (.DuplicateName n)) ∧
    (∃ d', visit_decl_stmt ⟨s :: rest⟩ (simpleIntDecl n) = .ok (⟨s :: rest⟩, d') ∧
      ScopeBuilder.find_name_rec (⟨s :: rest⟩ : ScopeBuilder TyInfo) n = some v) ∧
    (∀ t : Scope TyInfo, t.find n = none →
      ScopeBuilder.insert ⟨t :: s :: rest⟩ n w = .ok ⟨⟨(n, w) :: t.vars⟩ :: s :: rest⟩ ∧
      ScopeBuilder.find_name_rec (⟨(⟨(n, w) :: t.vars⟩ : Scope TyInfo) :: s :: rest⟩ :
          ScopeBuilder TyInfo) n = some w) := by
  cases hfind : List.find? (fun p => decide (p.1 = n)) s.vars with
  | none =>
    rw [Scope.find, hfind] at hv
    simp at hv
  | some pr =>
    have hv2 : pr.2 = v := by
      rw [Scope.find, hfind] at hv
      simpa using hv
    refine ⟨?_, ?_, ?_, ?_⟩
    · simp [ScopeBuilder.insert, Scope.insert, Scope.find, hfind]
    · simp [ScopeBuilder.insertOrDup, ScopeBuilder.insert, Scope.insert, Scope.find, hfind]
    · refine ⟨⟨false, ⟨.Primitive .Integer, ⟨0, 0⟩⟩, [⟨n, none, none, ⟨0, 0⟩, .Int⟩], ⟨0, 0⟩⟩,
        ?_, ?_⟩
      · simp [simpleIntDecl, Scope.find, hfind]
      · simp [ScopeBuilder.find_name_rec, ScopeBuilder.findRec, Scope.find, hfind, hv2]
    · intro t ht
      cases htf : List.find? (fun p => decide (p.1 = n)) t.vars with
      | some pr2 =>
        rw [Scope.find, htf] at ht
        simp at ht
      | none =>
        constructor
        · simp [ScopeBuilder.insert, Scope.insert, Scope.find, htf]
        · simp [ScopeBuilder.find_name_rec, ScopeBuilder.findRec, Scope.find]

/-- C1 (witness): the amended statement at a concrete scope stack. -/
theorem spec_c1_witness :
    (c1ScopeX.find "x" = some ⟨.Int, none, false⟩) ∧
    ScopeBuilder.insert ⟨[c1ScopeX]⟩ "x" ⟨.Int, none, false⟩ = .dup ∧
    ScopeBuilder.find_name_rec (⟨[c1ScopeX]⟩ : ScopeBuilder TyInfo) "x"
      = some ⟨.Int, none, false⟩ :=
  ⟨by simp [c1ScopeX, Scope.find],
   (spec_c1 "x" ⟨.Int, none, false⟩ ⟨.Int, none, false⟩ c1ScopeX []
      (by simp [c1ScopeX, Scope.find])).1,
   by
    have h := (spec_c1 "x" ⟨.Int, none, false⟩ ⟨.Int, none, false⟩ c1ScopeX []
      (by simp [c1ScopeX, Scope.find])).2.2.1
    obtain ⟨d', _, hfind⟩ := h
    exact hfind⟩

/-- C2 (counterexample): `getint` takes no parameters, yet the call
`getint(5)` — one argument — type-checks successfully: the truncating
`zip` compares no pairs at all, and no argument-count check exists. -/
theorem spec_c2_counterexample :
    visit_call_expr tcGlobalScopes "getint" [c2Arg5] ⟨0, 0⟩ .Unknown
      = .ok (.Call "getint" [c2Arg5Int] ⟨0, 0⟩ .Int, none) := by
  simp [tcGlobalScopes, c2Arg5, c2Arg5Int]

/-- C2 (amended): the call visit resolves the callee and checks argument
against parameter types only pairwise over `zip(args, params)`, which
truncates to the shorter list; whenever each argument checks and the
zipped prefix of types matches, the call succeeds — with no comparison
of argument count to parameter count whatsoever. -/
theorem spec_c2 (sc : ScopeBuilder TyInfo) (func : String)
    (args args' : List Expr) (span : Span) (ty0 : AstTy) (info : TyInfo)
    (ret_ty : AstTy) (param_tys : List AstTy)
    (hargs : visit_call_args sc args = .ok args')
    (hfind : sc.find_name_rec func = some info)
    (hfunc : info.ty.as_func = some (ret_ty, param_tys))
    (hzip : zipAssertTypes (args'.map Expr.ty) param_tys = .ok ()) :
    visit_call_expr sc func args span ty0
      = .ok (.Call func args' span ret_ty, none) := by
  rw [visit_call_expr, hargs]
  simp only [RRes.bind_eq_bind, RRes.bind_ok, hfind, hfunc, hzip, RRes.pure_eq_ok]

/-- C2 (witness): the amended statement at the concrete `getint(5)`. -/
theorem spec_c2_witness :
    visit_call_args tcGlobalScopes [c2Arg5] = .ok [c2Arg5Int] ∧
    zipAssertTypes ([c2Arg5Int].map Expr.ty) [] = .ok () ∧
    visit_call_expr tcGlobalScopes "getint" [c2Arg5] ⟨0, 0⟩ .Unknown
      = .ok (.Call "getint" [c2Arg5Int] ⟨0, 0⟩ .Int, none) :=
  ⟨by simp [tcGlobalScopes, c2Arg5, c2Arg5Int],
   by simp,
   spec_c2 tcGlobalScopes "getint" [c2Arg5] [c2Arg5Int] ⟨0, 0⟩ .Unknown
     ⟨.Func .Int [], none, false⟩ .Int []
     (by simp [tcGlobalScopes, c2Arg5, c2Arg5Int])
     (by simp [tcGlobalScopes])
     (by simp)
     (by simp [c2Arg5Int])⟩

/-- C4 (counterexample): checking `const int a[3] = {1, 2}` — the
declared type is built as `Array{3, Int}`, the initializer folds to the
literal `{1, 2}`, and fixing it against `Array{3, Int}` back-fills the
recorded size to 3 and the type to `Array{3, Int}` — but the resulting
"three-element" constant still holds exactly the two written element
literals: no zero element is appended. -/
theorem spec_c4_counterexample :
    build_ast_ty (ScopeBuilder.push_scope ⟨[]⟩) .Int
        (some [.Literal (.mk (.Integer 3) ⟨0, 0⟩ .Unknown)])
      = .ok (some [.Literal (.mk (.Integer 3) ⟨0, 0⟩ .Int)], .Array 3 .Int) ∧
    visit_const_init_val (ScopeBuilder.push_scope ⟨[]⟩) c4InitA
      = .ok (c4InitAVisited, c4RawLit) ∧
    fix_array_literal c4RawLit (.Array 3 .Int) = .ok c4ConstVal ∧
    literalValsLength c4ConstVal = 2 := by
  refine ⟨by simp, ?_, ?_, ?_⟩
  · simp [c4InitA, c4InitAVisited, c4RawLit]
  · simp [c4RawLit, c4ConstVal, c4Lit]
  · simp [c4ConstVal, c4Lit]

/-- C4 (amended): an array literal (or initializer list) with more
elements than the target dimension is rejected with `TooMuchElement`; one
with at most that many elements is accepted, its recorded size and type
back-filled from the declared `Array{siz, elem}` — while its element list
keeps exactly the elements that were written (the padding to `siz` stays
implicit in the recorded size; no zero literals are materialized). -/
theorem spec_c4 (siz ty_siz : Nat) (vals vals' : List LiteralExpr)
    (sp isp : Span) (lty ivty elem_ty : AstTy)
    (iv_vals iv_vals' : List InitVal) :
    (siz > ty_siz →
      fix_array_literal (.mk (.Array siz vals) sp lty) (.Array ty_siz elem_ty)
        = .err .TooMuchElement) ∧
    (¬ siz > ty_siz → fix_array_literal_list vals elem_ty = .ok vals' →
      fix_array_literal (.mk (.Array siz vals) sp lty) (.Array ty_siz elem_ty)
        = .ok (.mk (.Array ty_siz vals') sp (.Array ty_siz elem_ty)) ∧
      vals'.length = vals.length) ∧
    (iv_vals.length > ty_siz →
      fix_array_init_val (.mk ivty (.ArrayVal iv_vals) isp) (.Array ty_siz elem_ty)
        = .err .TooMuchElement) ∧
    (¬ iv_vals.length > ty_siz → fix_array_init_val_list iv_vals elem_ty = .ok iv_vals' →
      fix_array_init_val (.mk ivty (.ArrayVal iv_vals) isp) (.Array ty_siz elem_ty)
        = .ok (.mk (.Array ty_siz elem_ty) (.ArrayVal iv_vals') isp) ∧
      iv_vals'.length = iv_vals.length) := by
  refine ⟨?_, ?_, ?_, ?_⟩
  · intro h
    rw [fix_array_literal]
    simp [h]
  · intro h hfix
    constructor
    · rw [fix_array_literal]
      simp only [gt_iff_lt, if_neg (by omega : ¬ ty_siz < siz), hfix,
        RRes.bind_eq_bind, RRes.bind_ok, RRes.pure_eq_ok]
    · exact fix_array_literal_list_length elem_ty vals vals' hfix
  · intro h
    rw [fix_array_init_val]
    simp [h]
  · intro h hfix
    constructor
    · rw [fix_array_init_val]
      simp only [gt_iff_lt, if_neg (by omega : ¬ ty_siz < iv_vals.length), hfix,
        RRes.bind_eq_bind, RRes.bind_ok, RRes.pure_eq_ok]
    · exact fix_array_init_val_list_length elem_ty iv_vals iv_vals' hfix

/-- C4 (witness): the amended statement at `{1, 2}` against `int[1]`
(rejected) and against `int[3]` (accepted, still two elements). -/
theorem spec_c4_witness :
    fix_array_literal (.mk (.Array 2 [c4Lit 1, c4Lit 2]) ⟨0, 0⟩ .Unknown) (.Array 1 .Int)
      = .err .TooMuchElement ∧
    (fix_array_literal (.mk (.Array 2 [c4Lit 1, c4Lit 2]) ⟨0, 0⟩ .Unknown) (.Array 3 .Int)
      = .ok (.mk (.Array 3 [c4Lit 1, c4Lit 2]) ⟨0, 0⟩ (.Array 3 .Int)) ∧
      ([c4Lit 1, c4Lit 2] : List LiteralExpr).length = [c4Lit 1, c4Lit 2].length) :=
  ⟨(spec_c4 2 1 [c4Lit 1, c4Lit 2] [c4Lit 1, c4Lit 2] ⟨0, 0⟩ ⟨0, 0⟩ .Unknown .Unknown .Int
      [] []).1 (by decide),
   (spec_c4 2 3 [c4Lit 1, c4Lit 2] [c4Lit 1, c4Lit 2] ⟨0, 0⟩ ⟨0, 0⟩ .Unknown .Unknown .Int
      [] []).2.1 (by decide) (by simp [c4Lit])⟩

/-- C6 (counterexample): both operands of `1 / 0` fold to integer
literals, yet the binary visit returns no folded literal at all — it
panics in the Rust `/` (division by zero), so no result (and no semantic
error) is produced. -/
theorem spec_c6_counterexample :
    visit_binary_expr (⟨[]⟩ : ScopeBuilder TyInfo) .Div c6Lit1 c6Lit0 ⟨0, 3⟩ .Unknown
      = .panicked := by
  simp [c6Lit1, c6Lit0]

/-- C6 (amended): when both operands fold to integer literals, the
operator is legal on the folded operands' types (`Int × Int` for
arithmetic/comparison, `Bool × Bool` for `&&`/`||`), and the evaluation
does not hit the `/`-`%` panic (zero divisor or `i32::MIN / -1`), the
binary visit folds to the literal computed by `evalBinOp` — wrapping
32-bit arithmetic, C-style truncating division/modulo, comparisons and
logicals yielding 0 or 1 — whose span runs from the left operand's start
to the right operand's end. -/
theorem spec_c6 (sc : ScopeBuilder TyInfo) (op : BinaryOp)
    (lhs rhs lhs0 rhs0 : Expr) (span lspan rspan : Span)
    (ty0 lty rty : AstTy) (lv rv res : Int)
    (hl : visit_expr sc lhs = .ok (lhs0, some (.mk (.Integer lv) lspan lty)))
    (hr : visit_expr sc rhs = .ok (rhs0, some (.mk (.Integer rv) rspan rty)))
    (hlegal : binLegal op lty rty = true)
    (heval : evalBinOp op lv rv = .ok res) :
    visit_binary_expr sc op lhs rhs span ty0
      = .ok (.Binary op (.Literal (.mk (.Integer lv) lspan lty))
          (.Literal (.mk (.Integer rv) rspan rty)) span (binResultTy op),
        some (.mk (.Integer res) ⟨lspan.start, rspan.stop⟩ (binResultTy op))) := by
  rw [visit_binary_expr, hl]
  simp only [RRes.bind_eq_bind, RRes.bind_ok]
  rw [hr]
  simp only [RRes.bind_eq_bind, RRes.bind_ok, foldReplace, Expr.ty, LiteralExpr.ty,
    hlegal, Bool.not_true, Bool.false_eq_true, if_false, heval, RRes.pure_eq_ok]

/-- C6 (witness): `3 + 4 * 2` — the right operand folds to `8` first,
then the whole expression folds to the literal `11` spanning `0..9`. -/
theorem spec_c6_witness :
    visit_expr (⟨[]⟩ : ScopeBuilder TyInfo)
        (.Binary .Mul (.Literal (.mk (.Integer 4) ⟨4, 5⟩ .Unknown))
          (.Literal (.mk (.Integer 2) ⟨8, 9⟩ .Unknown)) ⟨4, 9⟩ .Unknown)
      = .ok (.Binary .Mul (.Literal (.mk (.Integer 4) ⟨4, 5⟩ .Int))
          (.Literal (.mk (.Integer 2) ⟨8, 9⟩ .Int)) ⟨4, 9⟩ .Int,
        some (.mk (.Integer 8) ⟨4, 9⟩ .Int)) ∧
    visit_binary_expr (⟨[]⟩ : ScopeBuilder TyInfo) .Add
        (.Literal (.mk (.Integer 3) ⟨0, 1⟩ .Unknown))
        (.Binary .Mul (.Literal (.mk (.Integer 4) ⟨4, 5⟩ .Unknown))
          (.Literal (.mk (.Integer 2) ⟨8, 9⟩ .Unknown)) ⟨4, 9⟩ .Unknown)
        ⟨0, 9⟩ .Unknown
      = .ok (.Binary .Add (.Literal (.mk (.Integer 3) ⟨0, 1⟩ .Int))
          (.Literal (.mk (.Integer 8) ⟨4, 9⟩ .Int)) ⟨0, 9⟩ .Int,
        some (.mk (.Integer 11) ⟨0, 9⟩ .Int)) :=
  ⟨by simp,
   spec_c6 ⟨[]⟩ .Add
     (.Literal (.mk (.Integer 3) ⟨0, 1⟩ .Unknown))
     (.Binary .Mul (.Literal (.mk (.Integer 4) ⟨4, 5⟩ .Unknown))
       (.Literal (.mk (.Integer 2) ⟨8, 9⟩ .Unknown)) ⟨4, 9⟩ .Unknown)
     (.Literal (.mk (.Integer 3) ⟨0, 1⟩ .Int))
     (.Binary .Mul (.Literal (.mk (.Integer 4) ⟨4, 5⟩ .Int))
       (.Literal (.mk (.Integer 2) ⟨8, 9⟩ .Int)) ⟨4, 9⟩ .Int)
     ⟨0, 9⟩ ⟨0, 1⟩ ⟨4, 9⟩ .Unknown .Int .Int 3 8 11
     (by simp) (by simp) (by simp) (by simp [add32, wrap32])⟩

/-- C10: a `Div` or `Mod` whose operands fold to integer literals with a
zero right literal (or `i32::MIN / -1`) makes the binary visit panic in
the Rust division — it never reaches the semantic-error branch, so no
`SemanticError` is ever returned for this input. -/
theorem spec_c10 (sc : ScopeBuilder TyInfo) (op : BinaryOp)
    (lhs rhs lhs0 rhs0 : Expr) (span lspan rspan : Span) (ty0 : AstTy)
    (lv rv : Int)
    (hl : visit_expr sc lhs = .ok (lhs0, some (.mk (.Integer lv) lspan .Int)))
    (hr : visit_expr sc rhs = .ok (rhs0, some (.mk (.Integer rv) rspan .Int)))
    (hop : op = .Div ∨ op = .Mod)
    (hbad : rv = 0 ∨ (lv = i32Min ∧ rv = -1)) :
    visit_binary_expr sc op lhs rhs span ty0 = .panicked ∧
    ∀ e : SemanticError, visit_binary_expr sc op lhs rhs span ty0 ≠ .err e := by
  have hp : visit_binary_expr sc op lhs rhs span ty0 = .panicked := by
    rcases hop with hop | hop <;> subst hop <;>
      (rw [visit_binary_expr, hl]
       simp only [RRes.bind_eq_bind, RRes.bind_ok]
       rw [hr]
       simp only [RRes.bind_eq_bind, RRes.bind_ok, foldReplace, Expr.ty, LiteralExpr.ty]
       rcases hbad with h0 | ⟨hmin, hneg⟩
       · subst h0
         simp [binLegal, BinaryOp.isArithOrCmp, div32, mod32]
       · subst hmin; subst hneg
         simp [binLegal, BinaryOp.isArithOrCmp, div32, mod32])
  exact ⟨hp, fun e he => by rw [hp] at he; exact RRes.noConfusion he⟩

/-- C10 (witness): the statement at the concrete fold of `1 / 0`. -/
theorem spec_c10_witness :
    visit_binary_expr (⟨[]⟩ : ScopeBuilder TyInfo) .Div
        (.Literal (.mk (.Integer 1) ⟨0, 1⟩ .Unknown))
        (.Literal (.mk (.Integer 0) ⟨2, 3⟩ .Unknown)) ⟨0, 3⟩ .Unknown = .panicked :=
  (spec_c10 ⟨[]⟩ .Div
    (.Literal (.mk (.Integer 1) ⟨0, 1⟩ .Unknown))
    (.Literal (.mk (.Integer 0) ⟨2, 3⟩ .Unknown))
    (.Literal (.mk (.Integer 1) ⟨0, 1⟩ .Int))
    (.Literal (.mk (.Integer 0) ⟨2, 3⟩ .Int))
    ⟨0, 3⟩ ⟨0, 1⟩ ⟨2, 3⟩ .Unknown 1 0
    (by simp) (by simp) (Or.inl rfl) (Or.inl rfl)).1


/-- Replacing the function a valid handle points at makes later lookups
of that handle see the replacement (arena handles stay valid). -/
theorem get_func_set_func (m : IrModule) (i : Nat) (fn f : IrFunc)
    (h : m.get_func i = some fn) : (m.set_func i f).get_func i = some f := by
  unfold IrModule.get_func IrModule.set_func at *
  obtain ⟨hlt, -⟩ := List.get?_eq_some.mp h
  simp only [List.get?_eq_getElem?] at *
  exact List.getElem?_set_eq_of_lt _ hlt

/-- Evaluation of `build_inst_end_of_cur` under a valid cursor. -/
theorem build_inst_end_of_cur_eq (ctx : Context) (k : InstKind) (ty : IrTy) (fn : IrFunc)
    (hfn : ctx.cur_module.get_func ctx.cur_func = some fn) :
    (ctx.build_inst_end_of_cur k ty : RRes SemanticError (Context × Nat))
      = .ok ({ ctx with
          cur_module := ctx.cur_module.set_func ctx.cur_func
            (fn.build_inst_at_end k ty ctx.cur_bb).1 }, fn.next_inst) := by
  simp only [Context.build_inst_end_of_cur, Context.build_inst_end, Context.modify_cur_func,
    hfn, IrFunc.build_inst_at_end]

/-- Evaluation of `build_bb_after_cur` under a valid cursor. -/
theorem build_bb_after_cur_eq (ctx : Context) (fn : IrFunc)
    (hfn : ctx.cur_module.get_func ctx.cur_func = some fn) :
    (ctx.build_bb_after_cur : RRes SemanticError (Context × Nat))
      = .ok ({ ctx with
          cur_module := ctx.cur_module.set_func ctx.cur_func
            (fn.build_bb_after_cur ctx.cur_bb).1 }, fn.next_bb) := by
  simp only [Context.build_bb_after_cur, Context.modify_cur_func, hfn,
    IrFunc.build_bb_after_cur]

/-- C5: `break`/`continue` are accepted unconditionally by the Type
Checker; the IR Builder's loop-target stack is the authoritative check —
when it is empty they fail with `BreakOutsideLoop` /
`ContinueOutsideLoop`, and when it is not, `break` emits a jump to the
innermost entry's break target and `continue` to its continue target, at
the current block.  Concretely: `break` outside any loop aborts function
lowering with `BreakOutsideLoop`, and in `void h() { while (c) break; }`
the `while` pushes `(next = block 3, condition = block 1)`, so the body's
`break` (in block 2) jumps straight to block 3, the loop's next block. -/
theorem spec_c5 (b : IrBuilder) (sp : Span) (t : BCTarget) (ts : List BCTarget)
    (fn : IrFunc) :
    (visit_break_stmt sp = .ok () ∧ visit_continue_stmt sp = .ok ()) ∧
    (b.loop_targets = [] →
      IrBuilder.visit_break_stmt b sp = .err .BreakOutsideLoop ∧
      IrBuilder.visit_continue_stmt b sp = .err .ContinueOutsideLoop) ∧
    (b.loop_targets = t :: ts →
      b.ctx.cur_module.get_func b.ctx.cur_func = some fn →
      (∃ b', IrBuilder.visit_break_stmt b sp = .ok b' ∧
        curFuncInsts b' = some (fn.insts ++
          [⟨fn.next_inst, b.ctx.cur_bb, .Br (.Jump t.break_target), .Void⟩])) ∧
      (∃ b', IrBuilder.visit_continue_stmt b sp = .ok b' ∧
        curFuncInsts b' = some (fn.insts ++
          [⟨fn.next_inst, b.ctx.cur_bb, .Br (.Jump t.continue_target), .Void⟩]))) ∧
    IrBuilder.visit_func irB0 c5FBreak = .err .BreakOutsideLoop ∧
    IrBuilder.visit_func irB0 c5FWhile = .ok c5WhileBuilt := by
  refine ⟨⟨rfl, rfl⟩, ?_, ?_, ?_, ?_⟩
  · intro h
    constructor
    · simp [IrBuilder.visit_break_stmt, IrBuilder.get_break_target, h]
    · simp [IrBuilder.visit_continue_stmt, IrBuilder.get_continue_target, h]
  · intro ht hfn
    constructor
    · have hfn1 := get_func_set_func _ _ _
        (fn.build_inst_at_end (.Br (.Jump t.break_target)) .Void b.ctx.cur_bb).1 hfn
      rw [IrBuilder.visit_break_stmt]
      simp only [IrBuilder.get_break_target, ht, List.head?_cons, Option.map_some']
      rw [build_inst_end_of_cur_eq _ _ _ _ hfn]
      simp only [RRes.bind_eq_bind, RRes.bind_ok]
      rw [build_bb_after_cur_eq _ _ hfn1]
      simp only [RRes.bind_eq_bind, RRes.bind_ok, RRes.pure_eq_ok]
      refine ⟨_, rfl, ?_⟩
      simp only [curFuncInsts, Context.set_cur_bb]
      rw [get_func_set_func _ _ _ _ hfn1]
      simp [IrFunc.build_bb_after_cur, IrFunc.build_inst_at_end]
    · have hfn1 := get_func_set_func _ _ _
        (fn.build_inst_at_end (.Br (.Jump t.continue_target)) .Void b.ctx.cur_bb).1 hfn
      rw [IrBuilder.visit_continue_stmt]
      simp only [IrBuilder.get_continue_target, ht, List.head?_cons, Option.map_some']
      rw [build_inst_end_of_cur_eq _ _ _ _ hfn]
      simp only [RRes.bind_eq_bind, RRes.bind_ok]
      rw [build_bb_after_cur_eq _ _ hfn1]
      simp only [RRes.bind_eq_bind, RRes.bind_ok, RRes.pure_eq_ok]
      refine ⟨_, rfl, ?_⟩
      simp only [curFuncInsts, Context.set_cur_bb]
      rw [get_func_set_func _ _ _ _ hfn1]
      simp [IrFunc.build_bb_after_cur, IrFunc.build_inst_at_end]
  · simp [irB0, c5FBreak]
  · simp [irB0, c5FWhile, c5WhileBuilt]

/-- C5 (witness): the statement at concrete builder states — the empty
stack rejects `break`/`continue`; a stack whose innermost entry is
`(3, 1)` makes `break` jump to block 3. -/
theorem spec_c5_witness :
    (IrBuilder.visit_break_stmt irB0 ⟨0, 0⟩ = .err .BreakOutsideLoop ∧
     IrBuilder.visit_continue_stmt irB0 ⟨0, 0⟩ = .err .ContinueOutsideLoop) ∧
    (∃ b', IrBuilder.visit_break_stmt c5BLoop ⟨0, 0⟩ = .ok b' ∧
      curFuncInsts b' = some [⟨0, 2, .Br (.Jump 3), .Void⟩]) :=
  ⟨(spec_c5 irB0 ⟨0, 0⟩ ⟨3, 1⟩ [] c5LoopFn).2.1 rfl,
   ((spec_c5 c5BLoop ⟨0, 0⟩ ⟨3, 1⟩ [] c5LoopFn).2.2.1 rfl rfl).1⟩

/-- Evaluation of `build_func_param` under a valid cursor. -/
theorem build_func_param_eq (ctx : Context) (ty : IrTy) (fn : IrFunc)
    (hfn : ctx.cur_module.get_func ctx.cur_func = some fn) :
    (ctx.build_func_param ty : RRes SemanticError (Context × Nat))
      = .ok ({ ctx with
          cur_module := ctx.cur_module.set_func ctx.cur_func
            (fn.build_func_param ty).1 }, fn.next_param) := by
  simp only [Context.build_func_param, Context.modify_cur_func, hfn,
    IrFunc.build_func_param]

/-- C7: an array-dimensioned parameter `int a[]` is typed `Ptr Int` by
the Type Checker; the IR Builder binds a pointer-typed parameter directly
to its parameter value — no `Alloca`, no instruction at all — and a
subscripted read through any resolved base address emits one `GEP` whose
index list gets the implicit leading zero exactly when the base operand
is *not* a `Param` (so a parameter base gets exactly the one subscript),
followed by a `Load` of the addressed element. -/
theorem spec_c7 (sc : ScopeBuilder TyInfo) (b : IrBuilder) (n : String)
    (psubs : Option (List Expr)) (tyi : TypeIdent) (sp sp2 sp3 : Span)
    (fn : IrFunc) (s : Scope IdInfo) (rest : List (Scope IdInfo))
    (idinfo : IdInfo) (addr0 : Operand) (i : Int) :
    (visit_func_param sc ⟨n, some [], ⟨.Primitive .Integer, sp⟩, .Unknown, sp2⟩
      = .ok ⟨n, some [], ⟨.Primitive .Integer, sp⟩, .Ptr .Int, sp2⟩) ∧
    (b.ctx.cur_module.get_func b.ctx.cur_func = some fn →
      b.ctx.scope_builder.scopes = s :: rest → s.find n = none →
      ∃ b', IrBuilder.visit_func_param b ⟨n, psubs, tyi, .Ptr .Int, sp2⟩ = .ok b' ∧
        curFuncInsts b' = some fn.insts ∧
        b'.ctx.scope_builder.find_name_rec n = some (.Param fn.next_param)) ∧
    (b.ctx.scope_builder.find_name_rec n = some idinfo →
      (operandFromIdInfo idinfo : RRes SemanticError Operand) = .ok addr0 →
      b.ctx.cur_module.get_func b.ctx.cur_func = some fn →
      ∃ b', IrBuilder.visit_lval_inner b n
          (some [.Literal (.mk (.Integer i) sp3 .Int)]) sp3 .Int false false
        = .ok (b', .Inst (fn.next_inst + 1)) ∧
        curFuncInsts b' = some (fn.insts ++
          [⟨fn.next_inst, b.ctx.cur_bb,
             .GEP addr0 ((if isParamOperand addr0 then [] else [.Const (.Int 0)]) ++
               [.Const (.Int i)]), .Ptr (.Int 32)⟩,
           ⟨fn.next_inst + 1, b.ctx.cur_bb, .Load (.Inst fn.next_inst), .Int 32⟩])) := by
  refine ⟨by simp, ?_, ?_⟩
  · intro hfn hsc hfree
    have hffind : List.find? (fun p => decide (p.1 = n)) s.vars = none := by
      rw [Scope.find] at hfree
      simpa using hfree
    have h1 : irTyFromAstTy (AstTy.Ptr .Int) = some (.Ptr (.Int 32)) := rfl
    rw [IrBuilder.visit_func_param]
    simp only [h1, RRes.unwrapOpt, RRes.bind_eq_bind, RRes.bind_ok]
    rw [build_func_param_eq _ _ _ hfn]
    simp only [RRes.bind_eq_bind, RRes.bind_ok]
    simp only [ScopeBuilder.insertDiscard, ScopeBuilder.insert, hsc, Scope.insert,
      Scope.find, hffind, Option.map_none', RRes.pure_eq_ok]
    refine ⟨_, rfl, ?_, ?_⟩
    · simp only [curFuncInsts]
      rw [get_func_set_func _ _ _ _ hfn]
      simp [IrFunc.build_func_param]
    · simp [ScopeBuilder.find_name_rec, ScopeBuilder.findRec, Scope.find]
  · intro hfind hop hfn
    have hgep := build_inst_end_of_cur_eq b.ctx
      (.GEP addr0 ((if isParamOperand addr0 then [] else [.Const (.Int 0)]) ++
        [.Const (.Int i)]))
      (IrTy.ptr_of (.Int 32)) fn hfn
    have hfn1 := get_func_set_func _ _ _
      (fn.build_inst_at_end
        (.GEP addr0 ((if isParamOperand addr0 then [] else [.Const (.Int 0)]) ++
          [.Const (.Int i)]))
        (IrTy.ptr_of (.Int 32)) b.ctx.cur_bb).1 hfn
    have h1 : irTyFromAstTy AstTy.Int = some (.Int 32) := rfl
    rw [IrBuilder.visit_lval_inner]
    simp only [h1, RRes.unwrapOpt, RRes.bind_eq_bind, RRes.bind_ok, hfind, hop]
    rw [IrBuilder.visit_expr_list, IrBuilder.visit_expr, IrBuilder.visit_literal_expr]
    simp only [RRes.bind_eq_bind, RRes.bind_ok, IrBuilder.visit_expr_list,
      RRes.pure_eq_ok]
    rw [hgep]
    simp only [RRes.bind_eq_bind, RRes.bind_ok, astTyIsArray, Bool.or_false]
    rw [build_inst_end_of_cur_eq _ _ _ _ hfn1]
    simp only [RRes.bind_eq_bind, RRes.bind_ok, RRes.pure_eq_ok, IrFunc.build_inst_at_end]
    refine ⟨_, rfl, ?_⟩
    simp only [curFuncInsts]
    simp only [IrFunc.build_inst_at_end, IrModule.set_func, IrModule.get_func,
      List.set_set, Option.map_eq_some']
    unfold IrModule.get_func at hfn
    obtain ⟨hlt, -⟩ := List.get?_eq_some.mp hfn
    have hlt2 : b.ctx.cur_func < (b.ctx.cur_module.funcs).length := hlt
    exact ⟨_, by simpa using List.getElem?_set_eq_of_lt _ hlt2, rfl⟩

/-- C7 (witness): the statement at the concrete `int f(int a[])` — the
checked parameter, its direct (no-`Alloca`) binding, and the lowering of
`a[0]` to `GEP (Param 0) [0]` followed by a `Load`. -/
theorem spec_c7_witness :
    visit_func_param (ScopeBuilder.push_scope ⟨[]⟩) c7ParamRaw = .ok c7ParamChecked ∧
    (∃ b', IrBuilder.visit_func_param c7BFresh c7ParamChecked = .ok b' ∧
      curFuncInsts b' = some [] ∧
      b'.ctx.scope_builder.find_name_rec "a" = some (.Param 0)) ∧
    (∃ b', IrBuilder.visit_lval_inner c7BParam "a"
        (some [.Literal (.mk (.Integer 0) ⟨0, 0⟩ .Int)]) ⟨0, 0⟩ .Int false false
      = .ok (b', .Inst 1) ∧
      curFuncInsts b' = some
        [⟨0, 0, .GEP (.Param 0) [.Const (.Int 0)], .Ptr (.Int 32)⟩,
         ⟨1, 0, .Load (.Inst 0), .Int 32⟩]) :=
  ⟨(spec_c7 (ScopeBuilder.push_scope ⟨[]⟩) c7BFresh "a" (some [])
      ⟨.Primitive .Integer, ⟨0, 0⟩⟩ ⟨0, 0⟩ ⟨0, 0⟩ ⟨0, 0⟩
      ⟨"f", .Int 32, false, [], 0, [0], 1, [], 0⟩ ⟨[]⟩ [] (.Param 0) (.Param 0) 0).1,
   (spec_c7 (ScopeBuilder.push_scope ⟨[]⟩) c7BFresh "a" (some [])
      ⟨.Primitive .Integer, ⟨0, 0⟩⟩ ⟨0, 0⟩ ⟨0, 0⟩ ⟨0, 0⟩
      ⟨"f", .Int 32, false, [], 0, [0], 1, [], 0⟩ ⟨[]⟩ [] (.Param 0) (.Param 0) 0).2.1
     rfl rfl rfl,
   (spec_c7 (ScopeBuilder.push_scope ⟨[]⟩) c7BParam "a" (some [])
      ⟨.Primitive .Integer, ⟨0, 0⟩⟩ ⟨0, 0⟩ ⟨0, 0⟩ ⟨0, 0⟩
      ⟨"f", .Int 32, false, [(0, .Ptr (.Int 32))], 1, [0], 1, [], 0⟩ ⟨[]⟩ []
      (.Param 0) (.Param 0) 0).2.2 rfl rfl rfl⟩

/-- C8: once the prefix of `visit_func` — skeleton, scope, entry block,
parameters, body — has been lowered (to state `b1`), `visit_func`
appends exactly one implicit return instruction at the block the cursor
then points to: value `none` when the declared return type is `Void` and
the constant `0` when it is `Int`; that block's final instruction is
therefore a return terminator, so lowering never leaves the cursor block
unterminated. -/
theorem spec_c8 (b b1 : IrBuilder) (f : AstFunc) (ret_ty : IrTy) (fn : IrFunc)
    (hret : IrBuilder.visit_ty f.ret_ty_ident = .ok ret_ty)
    (hbody : IrBuilder.visit_func_setup_and_body b f ret_ty = .ok b1)
    (hfn : b1.ctx.cur_module.get_func b1.ctx.cur_func = some fn) :
    ∃ rv, IrBuilder.implicit_ret_inst ret_ty = .ok rv ∧
      (ret_ty = .Void → rv = none) ∧
      (∀ w, ret_ty = .Int w → rv = some (.Const (.Int 0))) ∧
      IrBuilder.visit_func b f = .ok
        { b1 with ctx := { b1.ctx with
            cur_module := b1.ctx.cur_module.set_func b1.ctx.cur_func
              (fn.build_inst_at_end (.RetInst rv) .Void b1.ctx.cur_bb).1,
            scope_builder := b1.ctx.scope_builder.pop_scope } } ∧
      lastInstOfBlock (fn.build_inst_at_end (.RetInst rv) .Void b1.ctx.cur_bb).1 b1.ctx.cur_bb
        = some ⟨fn.next_inst, b1.ctx.cur_bb, .RetInst rv, .Void⟩ := by
  have hcases : ret_ty = IrTy.Int 32 ∨ ret_ty = IrTy.Void := by
    unfold IrBuilder.visit_ty at hret
    rcases hk : f.ret_ty_ident.kind with p | _
    · rcases p
      rw [hk] at hret
      simp only [RRes.ok.injEq] at hret
      exact Or.inl hret.symm
    · rw [hk] at hret
      simp only [RRes.ok.injEq] at hret
      exact Or.inr hret.symm
  have main : ∀ rv : Option Operand, IrBuilder.implicit_ret_inst ret_ty = .ok rv →
      IrBuilder.visit_func b f = .ok
        { b1 with ctx := { b1.ctx with
            cur_module := b1.ctx.cur_module.set_func b1.ctx.cur_func
              (fn.build_inst_at_end (.RetInst rv) .Void b1.ctx.cur_bb).1,
            scope_builder := b1.ctx.scope_builder.pop_scope } } := by
    intro rv hrv
    rw [IrBuilder.visit_func, hret]
    simp only [RRes.bind_eq_bind, RRes.bind_ok]
    rw [hbody]
    simp only [RRes.bind_eq_bind, RRes.bind_ok, hrv]
    rw [build_inst_end_of_cur_eq _ _ _ _ hfn]
    simp only [RRes.bind_eq_bind, RRes.bind_ok, RRes.pure_eq_ok]
  have hlast : ∀ rv : Option Operand,
      lastInstOfBlock (fn.build_inst_at_end (.RetInst rv) .Void b1.ctx.cur_bb).1 b1.ctx.cur_bb
        = some ⟨fn.next_inst, b1.ctx.cur_bb, .RetInst rv, .Void⟩ := by
    intro rv
    simp [lastInstOfBlock, IrFunc.build_inst_at_end, List.filter_append]
  rcases hcases with h | h <;> subst h
  · exact ⟨some (.Const (.Int 0)), rfl, by simp, fun w hw => rfl,
      main _ rfl, hlast _⟩
  · exact ⟨none, rfl, fun _ => rfl, by simp, main _ rfl, hlast _⟩

/-- C8 (witness): the statement at the concrete `int main() { }` — the
body phase yields `c8B1`, and the appended implicit return is
`ret (const 0)` in entry block 0. -/
theorem spec_c8_witness :
    IrBuilder.visit_func_setup_and_body irB0 c8FMain (.Int 32) = .ok c8B1 ∧
    ∃ rv, IrBuilder.implicit_ret_inst (.Int 32) = .ok rv ∧
      ((IrTy.Int 32) = .Void → rv = none) ∧
      (∀ w, (IrTy.Int 32) = .Int w → rv = some (.Const (.Int 0))) ∧
      IrBuilder.visit_func irB0 c8FMain = .ok
        { c8B1 with ctx := { c8B1.ctx with
            cur_module := c8B1.ctx.cur_module.set_func c8B1.ctx.cur_func
              (c8MainFn.build_inst_at_end (.RetInst rv) .Void c8B1.ctx.cur_bb).1,
            scope_builder := c8B1.ctx.scope_builder.pop_scope } } ∧
      lastInstOfBlock (c8MainFn.build_inst_at_end (.RetInst rv) .Void c8B1.ctx.cur_bb).1
          c8B1.ctx.cur_bb
        = some ⟨c8MainFn.next_inst, c8B1.ctx.cur_bb, .RetInst rv, .Void⟩ :=
  ⟨by simp [irB0, c8FMain, c8B1],
   spec_c8 irB0 c8B1 c8FMain (.Int 32) c8MainFn rfl (by simp [irB0, c8FMain, c8B1]) rfl⟩

/-- C9: logical not computes the *truthiness* of its operand, not its
negation — the Type Checker folds `!x` (integer literal `x`) to
`i32::from(x != 0)` (1 for nonzero `x`, 0 for zero), and the IR Builder
lowers `!e` to a `Ne`-against-zero comparison, preceded by a `ZExt` to
32 bits exactly when the operand's checked type is `Bool`; so the folded
and the lowered forms agree, and `!0` evaluates to 0 while `!1`
evaluates to 1. -/
theorem spec_c9 (sc : ScopeBuilder TyInfo) (sub sub0 : Expr) (sp lsp : Span)
    (ty0 lty : AstTy) (x : Int)
    (hsub : visit_expr sc sub = .ok (sub0, some (.mk (.Integer x) lsp lty)))
    (hty : expectTyIntOrBool lty = .ok ())
    (b b1 : IrBuilder) (isub : Expr) (isp : Span) (ity : AstTy) (val : Operand)
    (fn : IrFunc)
    (hiv : IrBuilder.visit_expr b isub = .ok (b1, val))
    (hfn : b1.ctx.cur_module.get_func b1.ctx.cur_func = some fn) :
    (visit_unary_expr sc .Not sub sp ty0
      = .ok (.Unary .Not (.Literal (.mk (.Integer x) lsp lty)) sp lty,
          some (.mk (.Integer (i32OfBool (x != 0))) sp lty))) ∧
    (isub.ty = .Int →
      ∃ b2, IrBuilder.visit_unary_expr b .Not isub isp ity = .ok (b2, .Inst fn.next_inst) ∧
        curFuncInsts b2 = some (fn.insts ++
          [⟨fn.next_inst, b1.ctx.cur_bb, .Binary .Ne val (.Const (.Int 0)), .Int 1⟩])) ∧
    (isub.ty = .Bool →
      ∃ b2, IrBuilder.visit_unary_expr b .Not isub isp ity
          = .ok (b2, .Inst (fn.next_inst + 1)) ∧
        curFuncInsts b2 = some (fn.insts ++
          [⟨fn.next_inst, b1.ctx.cur_bb, .ZExt val (.Int 32), .Int 32⟩,
           ⟨fn.next_inst + 1, b1.ctx.cur_bb,
             .Binary .Ne (.Inst fn.next_inst) (.Const (.Int 0)), .Int 1⟩])) := by
  refine ⟨?_, ?_, ?_⟩
  · rw [visit_unary_expr, hsub]
    simp only [RRes.bind_eq_bind, RRes.bind_ok, foldReplace, Expr.ty, LiteralExpr.ty, hty,
      LiteralExpr.get_int, Option.bind_eq_bind, Option.some_bind, Option.map_some',
      RRes.pure_eq_ok]
  · intro hint
    rw [IrBuilder.visit_unary_expr, hiv]
    simp only [RRes.bind_eq_bind, RRes.bind_ok, hint]
    simp only [RRes.pure_eq_ok, RRes.bind_eq_bind, RRes.bind_ok]
    rw [build_inst_end_of_cur_eq _ _ _ _ hfn]
    simp only [RRes.bind_eq_bind, RRes.bind_ok, RRes.pure_eq_ok]
    refine ⟨_, rfl, ?_⟩
    simp only [curFuncInsts]
    rw [get_func_set_func _ _ _ _ hfn]
    simp [IrFunc.build_inst_at_end, IrTy.bool]
  · intro hbool
    have hfn1 := get_func_set_func _ _ _
      (fn.build_inst_at_end (.ZExt val IrTy.int) IrTy.int b1.ctx.cur_bb).1 hfn
    rw [IrBuilder.visit_unary_expr, hiv]
    simp only [RRes.bind_eq_bind, RRes.bind_ok, hbool]
    simp only [RRes.pure_eq_ok, RRes.bind_eq_bind, RRes.bind_ok]
    rw [build_inst_end_of_cur_eq _ _ _ _ hfn]
    simp only [RRes.bind_eq_bind, RRes.bind_ok, RRes.pure_eq_ok]
    rw [build_inst_end_of_cur_eq _ _ _ _ hfn1]
    simp only [RRes.bind_eq_bind, RRes.bind_ok, RRes.pure_eq_ok]
    refine ⟨_, rfl, ?_⟩
    simp only [curFuncInsts]
    simp only [IrFunc.build_inst_at_end, IrModule.set_func, IrModule.get_func,
      List.set_set, IrTy.int, IrTy.bool]
    unfold IrModule.get_func at hfn
    obtain ⟨hlt, -⟩ := List.get?_eq_some.mp hfn
    have hlt2 : b1.ctx.cur_func < (b1.ctx.cur_module.funcs).length := hlt
    simp only [Option.map_eq_some']
    exact ⟨_, by simpa using List.getElem?_set_eq_of_lt _ hlt2, rfl⟩

/-- C9 (witness): `!0` folds to `0` and `!1` folds to `1`; lowering `!7`
(integer operand) emits `ne 7, 0` with no `ZExt`, while lowering
`!(1 < 2)` (boolean operand) emits the `ZExt` then `ne`. -/
theorem spec_c9_witness :
    (visit_unary_expr (⟨[]⟩ : ScopeBuilder TyInfo) .Not c9Not0 ⟨0, 2⟩ .Unknown
      = .ok (.Unary .Not (.Literal (.mk (.Integer 0) ⟨1, 2⟩ .Int)) ⟨0, 2⟩ .Int,
          some (.mk (.Integer 0) ⟨0, 2⟩ .Int))) ∧
    (visit_unary_expr (⟨[]⟩ : ScopeBuilder TyInfo) .Not c9Not1 ⟨0, 2⟩ .Unknown
      = .ok (.Unary .Not (.Literal (.mk (.Integer 1) ⟨1, 2⟩ .Int)) ⟨0, 2⟩ .Int,
          some (.mk (.Integer 1) ⟨0, 2⟩ .Int))) ∧
    (∃ b2, IrBuilder.visit_unary_expr c7BFresh .Not c9SubInt ⟨0, 0⟩ .Bool
        = .ok (b2, .Inst 0) ∧
      curFuncInsts b2
        = some [⟨0, 0, .Binary .Ne (.Const (.Int 7)) (.Const (.Int 0)), .Int 1⟩]) ∧
    (∃ b2, IrBuilder.visit_unary_expr c7BFresh .Not c9SubBool ⟨0, 0⟩ .Bool
        = .ok (b2, .Inst 2) ∧
      curFuncInsts b2
        = some [⟨0, 0, .Binary .Lt (.Const (.Int 1)) (.Const (.Int 2)), .Int 1⟩,
            ⟨1, 0, .ZExt (.Inst 0) (.Int 32), .Int 32⟩,
            ⟨2, 0, .Binary .Ne (.Inst 1) (.Const (.Int 0)), .Int 1⟩]) :=
  ⟨(spec_c9 ⟨[]⟩ c9Not0 (.Literal (.mk (.Integer 0) ⟨1, 2⟩ .Int)) ⟨0, 2⟩ ⟨1, 2⟩
      .Unknown .Int 0 (by simp [c9Not0]) rfl
      c7BFresh c7BFresh c9SubInt ⟨0, 0⟩ .Bool (.Const (.Int 7))
      ⟨"f", .Int 32, false, [], 0, [0], 1, [], 0⟩ (by simp [c9SubInt]) rfl).1,
   (spec_c9 ⟨[]⟩ c9Not1 (.Literal (.mk (.Integer 1) ⟨1, 2⟩ .Int)) ⟨0, 2⟩ ⟨1, 2⟩
      .Unknown .Int 1 (by simp [c9Not1]) rfl
      c7BFresh c7BFresh c9SubInt ⟨0, 0⟩ .Bool (.Const (.Int 7))
      ⟨"f", .Int 32, false, [], 0, [0], 1, [], 0⟩ (by simp [c9SubInt]) rfl).1,
   (spec_c9 ⟨[]⟩ c9Not0 (.Literal (.mk (.Integer 0) ⟨1, 2⟩ .Int)) ⟨0, 2⟩ ⟨1, 2⟩
      .Unknown .Int 0 (by simp [c9Not0]) rfl
      c7BFresh c7BFresh c9SubInt ⟨0, 0⟩ .Bool (.Const (.Int 7))
      ⟨"f", .Int 32, false, [], 0, [0], 1, [], 0⟩ (by simp [c9SubInt]) rfl).2.1 rfl,
   (spec_c9 ⟨[]⟩ c9Not0 (.Literal (.mk (.Integer 0) ⟨1, 2⟩ .Int)) ⟨0, 2⟩ ⟨1, 2⟩
      .Unknown .Int 0 (by simp [c9Not0]) rfl
      c7BFresh c9BAfterLt c9SubBool ⟨0, 0⟩ .Bool (.Inst 0)
      c9FnAfterLt (by simp [c9SubBool, c7BFresh, c9BAfterLt, c9FnAfterLt]) rfl).2.2 rfl⟩
